import Mathlib

/-! graphene-desktop: window-manager core, notification box, dialog and scroll box

A shallow embedding of the parts of `src/wm.c`, `src/notifications.c`,
`src/dialog.c` and `src/cmk/cmk-scroll-box.c` that the window-manager core
relies on:

* the nested modal counter (`graphene_wm_begin_modal`, `graphene_wm_end_modal`),
* the X11 stage input region (`xfixes_calculate_input_region`,
  `xfixes_add_input_actor`, `xfixes_remove_input_actor`),
* the window transitions (minimize, unminimize, destroy, map) and their
  completion handlers,
* the modal dialog and the cover group, the scene assembly on a change of
  monitors and the window wrapper,
* the notification box (ids, failure notification, timeouts, stacking order
  and boxes),
* the allocation of the dialog widget and `scroll_to` of the scroll box.

State that the C code keeps in a struct is a Lean structure and every C
function is a pure function on it.  What the C code reads from Clutter or
Mutter (whether an actor is mapped, its transformed geometry, the monitors)
is an explicit argument.
-/

namespace Graphene

/-! ## Window manager: actors and the X input region -/

/-- What `xfixes_calculate_input_region` reads from one `ClutterActor *`:
`CLUTTER_IS_ACTOR`, `clutter_actor_is_mapped`, `clutter_actor_get_reactive`,
`clutter_actor_get_transformed_position` and
`clutter_actor_get_transformed_size`.  The `gfloat` results are rationals. -/
structure ClutterActor where
  isActor : Bool
  mapped : Bool
  reactive : Bool
  x : ℚ
  y : ℚ
  width : ℚ
  height : ℚ
  deriving DecidableEq

/-- The scene as Clutter reports it: actor pointers are numbers. -/
abbrev Scene := Nat → ClutterActor

/-- An `XRectangle`: `short x, y; unsigned short width, height`. -/
structure XRectangle where
  x : Int
  y : Int
  width : Int
  height : Int
  deriving DecidableEq, Repr

/-- Rounding of a `gfloat` toward zero, as a C conversion to an integer type does. -/
def truncf (q : ℚ) : Int := if 0 ≤ q then ⌊q⌋ else ⌈q⌉

/-- Reduction of an integer to the range of `short`. -/
def wrapShort (z : Int) : Int := (z + 32768) % 65536 - 32768

/-- The cast `(short)f` of a `gfloat`.  C defines it only when the truncated
value fits; outside that range the value is reduced modulo 2^16. -/
def castShort (q : ℚ) : Int := wrapShort (truncf q)

/-- The cast `(unsigned short)f` of a `gfloat`, reduced modulo 2^16 outside
the range in which C defines it. -/
def castUShort (q : ℚ) : Int := truncf q % 65536

/-- The calls of external primitives that the modelled functions make, in order. -/
inductive Call where
  | meta_plugin_begin_modal
  | meta_plugin_end_modal
  | xfixes_calculate_input_region
  | g_critical
  deriving DecidableEq, Repr

/-- Modelled from the spec: the declaration of `struct _GrapheneWM`, which is
in `wm.h` and not among the sources.  These are the fields that the modal
counter and the input region code of `wm.c` use, together with the state of
the collaborators they drive.

* `wayland` is the answer of `meta_is_wayland_compositor()`.
* `modalCount` is the depth counter.  The spec calls it an integer depth
  counter, and `graphene_wm_end_modal` resets it to 0 after a decrement that
  did not leave it positive, so it is a signed integer here.  The model does
  not bound it: C leaves the increment undefined only after 2^31 - 1 nested
  sessions.
* `xInputActors` is the `GList` of registered actors, head first.
* `xInputRegion` is the `XserverRegion` handle, 0 when there is none.
* `grab` tells whether the plugin holds the exclusive grab: taken by a
  `meta_plugin_begin_modal` that succeeds, released by `meta_plugin_end_modal`.
* `grabOp` tells whether `meta_plugin_begin_modal` cannot take the grab
  because another grab operation is in progress on the display, as when the
  user drags a window.  No function of `wm.c` changes it.
* `stageInputRegion` is the region last published for the stage: `none` before
  anything was published, `some []` the empty region.
* `xidCount` counts the regions created, so that every new handle is fresh.
* `log` lists the calls made so far. -/
structure GrapheneWM where
  wayland : Bool
  modalCount : Int
  xInputActors : List Nat
  xInputRegion : Nat
  grab : Bool
  grabOp : Bool
  stageInputRegion : Option (List XRectangle)
  xidCount : Nat
  log : List Call
  deriving DecidableEq

/-- The rectangle written to `rects[i]` for one actor (wm.c, lines 470-476). -/
def inputRect (actor : ClutterActor) : XRectangle :=
  { x := castShort actor.x
    y := wrapShort (castShort actor.y + 1)
    width := castUShort actor.width
    height := castUShort actor.height }

/-- The loop of `xfixes_calculate_input_region` over the registered actors:
`none` when the loop hits the early `return`, otherwise the rectangles
collected.  Entries that are not actors are skipped. -/
def collectRects (scene : Scene) : List Nat → Option (List XRectangle)
  | [] => some []
  | it :: rest =>
    if !(scene it).isActor then collectRects scene rest
    else if !(scene it).mapped || !(scene it).reactive then none
    else (collectRects scene rest).map (fun rects => inputRect (scene it) :: rects)

/-- The body of `xfixes_calculate_input_region` (wm.c, lines 441-486). -/
def xfixes_calculate_input_region (scene : Scene) (self : GrapheneWM) : GrapheneWM :=
  let self := { self with log := self.log ++ [Call.xfixes_calculate_input_region] }
  if self.wayland then self
  else
    let numActors := self.xInputActors.length
    if 0 < self.modalCount || numActors == 0 then
      { self with stageInputRegion := some [], xInputRegion := 0 }
    else
      match collectRects scene self.xInputActors with
      | none => self
      | some rects =>
        { self with
          xInputRegion := self.xidCount + 1
          xidCount := self.xidCount + 1
          stageInputRegion := some rects }

/-- The function `xfixes_add_input_actor` (wm.c, lines 494-507). -/
def xfixes_add_input_actor (scene : Scene) (self : GrapheneWM) (actor : Nat) : GrapheneWM :=
  if self.wayland then self
  else if !(scene actor).isActor then { self with log := self.log ++ [Call.g_critical] }
  else
    xfixes_calculate_input_region scene { self with xInputActors := actor :: self.xInputActors }

/-- The loop of `xfixes_remove_input_actor`: walks the list, unlinks every
node whose data is `actor` and sets `changed` when it unlinks one.  The
result is the remaining list and the final value of `changed`. -/
def removeLoop (actor : Nat) : List Nat → Bool → List Nat × Bool
  | [], changed => ([], changed)
  | it :: rest, changed =>
    if it = actor then removeLoop actor rest true
    else
      let r := removeLoop actor rest changed
      (it :: r.1, r.2)

/-- The function `xfixes_remove_input_actor` (wm.c, lines 509-532). -/
def xfixes_remove_input_actor (scene : Scene) (self : GrapheneWM) (actor : Nat) : GrapheneWM :=
  if self.wayland then self
  else if !(scene actor).isActor then { self with log := self.log ++ [Call.g_critical] }
  else
    let r := removeLoop actor self.xInputActors false
    let self := { self with xInputActors := r.1 }
    if r.2 then xfixes_calculate_input_region scene self else self

/-! ## Window manager: the modal counter -/

/-- Mutter's `meta_plugin_begin_modal`: it returns `FALSE` and takes no grab
when the plugin is modal already or another grab operation is in progress on
the display; otherwise it takes the exclusive grab and returns `TRUE`.  The
result is the state and the `gboolean` returned. -/
def meta_plugin_begin_modal (self : GrapheneWM) : GrapheneWM × Bool :=
  let self := { self with log := self.log ++ [Call.meta_plugin_begin_modal] }
  if self.grab || self.grabOp then (self, false)
  else ({ self with grab := true }, true)

/-- The function `graphene_wm_begin_modal` (wm.c, lines 534-547).  The
`gboolean` that `meta_plugin_begin_modal` returns is not looked at. -/
def graphene_wm_begin_modal (scene : Scene) (self : GrapheneWM) : GrapheneWM :=
  if 0 < self.modalCount then
    { self with modalCount := self.modalCount + 1 }
  else
    let self := { self with modalCount := self.modalCount + 1 }
    let self := (meta_plugin_begin_modal self).1
    xfixes_calculate_input_region scene self

/-- The function `graphene_wm_end_modal` (wm.c, lines 549-558). -/
def graphene_wm_end_modal (scene : Scene) (self : GrapheneWM) : GrapheneWM :=
  let self := { self with modalCount := self.modalCount - 1 }
  if 0 < self.modalCount then self
  else
    let self := { self with modalCount := 0 }
    let self := { self with grab := false, log := self.log ++ [Call.meta_plugin_end_modal] }
    xfixes_calculate_input_region scene self

/-- A freshly constructed `GrapheneWM` (GObject zero-fills the instance)
under the X11 backend, before anything was published. -/
def wmInit : GrapheneWM :=
  { wayland := false, modalCount := 0, xInputActors := [], xInputRegion := 0,
    grab := false, grabOp := false, stageInputRegion := none, xidCount := 0, log := [] }

/-- One event on the window manager. -/
inductive WMEvent where
  | begin_modal
  | end_modal
  | add_input_actor (actor : Nat)
  | remove_input_actor (actor : Nat)
  | actor_changed
  deriving DecidableEq, Repr

/-- The effect of one event in the scene current when it happens.  A change
notification of an actor (`notify::allocation`, `notify::mapped`,
`notify::reactive`) runs `xfixes_calculate_input_region`. -/
def wmStep (scene : Scene) (self : GrapheneWM) : WMEvent → GrapheneWM
  | .begin_modal => graphene_wm_begin_modal scene self
  | .end_modal => graphene_wm_end_modal scene self
  | .add_input_actor a => xfixes_add_input_actor scene self a
  | .remove_input_actor a => xfixes_remove_input_actor scene self a
  | .actor_changed => xfixes_calculate_input_region scene self

/-- A sequence of events, each with the scene current when it happens. -/
def wmRun (self : GrapheneWM) : List (Scene × WMEvent) → GrapheneWM
  | [] => self
  | (scene, ev) :: rest => wmRun (wmStep scene self ev) rest

/-- The calls made between two states: what was appended to the log. -/
def newCalls (before after : GrapheneWM) : List Call :=
  after.log.drop before.log.length

/-- A scene with no actor in it. -/
def emptyScene : Scene := fun _ =>
  { isActor := false, mapped := false, reactive := false, x := 0, y := 0, width := 0, height := 0 }

/-- A scene with one actor, number 1: mapped and reactive, at (5, 7) with
size 100 x 30.  Every other pointer is not an actor. -/
def panelScene : Scene := fun a =>
  if a = 1 then
    { isActor := true, mapped := true, reactive := true, x := 5, y := 7, width := 100, height := 30 }
  else
    { isActor := false, mapped := false, reactive := false, x := 0, y := 0, width := 0, height := 0 }

/-- The scene `panelScene` after actor 1 was unmapped. -/
def hiddenPanelScene : Scene := fun a =>
  if a = 1 then
    { isActor := true, mapped := false, reactive := true, x := 5, y := 7, width := 100, height := 30 }
  else
    { isActor := false, mapped := false, reactive := false, x := 0, y := 0, width := 0, height := 0 }

/-- The fresh window manager after actor 1 of `panelScene` was registered. -/
def wmPanel : GrapheneWM := xfixes_add_input_actor panelScene wmInit 1

/-- A fresh window manager at a moment when the user drags a window: another
grab operation is in progress on the display. -/
def wmDragging : GrapheneWM := { wmInit with grabOp := true }

/-- The invariant of the modal counter while no other grab operation is in
progress: the depth is not negative and the grab is held exactly at positive
depth. -/
def ModalInv (s : GrapheneWM) : Prop :=
  s.grabOp = false ∧ 0 ≤ s.modalCount ∧ (s.grab = true ↔ 0 < s.modalCount)

/-- The invariant of the input region: under X11, a positive depth comes with the empty
region published and no region handle stored. -/
def RegionInv (s : GrapheneWM) : Prop :=
  s.wayland = false ∧
    (0 < s.modalCount → s.stageInputRegion = some [] ∧ s.xInputRegion = 0)

/-! ## Window manager: window transitions -/

/-- The four callbacks that `wm.c` connects to the "transitions_completed"
signal of a window actor. -/
inductive DoneHandler where
  | minimize_done
  | unminimize_done
  | destroy_done
  | map_done
  deriving DecidableEq, Repr

/-- Mutter's `MetaWindowType` (meta/window.h). -/
inductive MetaWindowType where
  | NORMAL
  | DESKTOP
  | DOCK
  | DIALOG
  | MODAL_DIALOG
  | TOOLBAR
  | MENU
  | UTILITY
  | SPLASHSCREEN
  | DROPDOWN_MENU
  | POPUP_MENU
  | TOOLTIP
  | NOTIFICATION
  | COMBO
  | DND
  | OVERRIDE_OTHER
  deriving DecidableEq, Repr

/-- What the transition code does to a window actor and to the plugin, in
order: signal connections and disconnections, the two markers set with
`g_object_set_data`, Clutter calls and the acknowledgements
`meta_plugin_*_completed`.  `ease` stands for the property changes made
inside a saved easing state, which start the transitions. -/
inductive WindowCall where
  | signal_connect (handler : DoneHandler)
  | signal_handlers_disconnect_by_func (handler : DoneHandler)
  | set_minimizing (value : Bool)
  | set_unminimizing (value : Bool)
  | remove_all_transitions
  | ease
  | show
  | hide
  | set_shadow_dock
  | meta_plugin_minimize_completed
  | meta_plugin_unminimize_completed
  | meta_plugin_destroy_completed
  | meta_plugin_map_completed
  deriving DecidableEq, Repr

/-- One window actor as the transition code sees it: the data keys
"minimizing" and "unminimizing" (`false` when unset), the handlers connected
to "transitions_completed" in the order of connection, whether the actor is
shown, and the calls made so far.  Positions and scales, which the code sets
from the icon geometry, are not part of the model. -/
structure WindowActor where
  minimizing : Bool
  unminimizing : Bool
  handlers : List DoneHandler
  visible : Bool
  calls : List WindowCall
  deriving DecidableEq, Repr

/-- A window actor on which no transition was requested yet. -/
def freshWindowActor : WindowActor :=
  { minimizing := false, unminimizing := false, handlers := [], visible := true, calls := [] }

/-- The function `minimize_done` (wm.c, lines 702-712).
`g_signal_handlers_disconnect_by_func` disconnects every handler with this
callback. -/
def minimize_done (actor : WindowActor) : WindowActor :=
  let actor := { actor with
    handlers := actor.handlers.filter (fun h => decide (h ≠ DoneHandler.minimize_done))
    calls := actor.calls ++ [WindowCall.signal_handlers_disconnect_by_func .minimize_done] }
  let actor := { actor with visible := false, calls := actor.calls ++ [WindowCall.hide] }
  let actor := { actor with calls := actor.calls ++ [WindowCall.meta_plugin_minimize_completed] }
  { actor with minimizing := false, calls := actor.calls ++ [WindowCall.set_minimizing false] }

/-- The function `unminimize_done` (wm.c, lines 751-756). -/
def unminimize_done (actor : WindowActor) : WindowActor :=
  let actor := { actor with
    handlers := actor.handlers.filter (fun h => decide (h ≠ DoneHandler.unminimize_done))
    calls := actor.calls ++ [WindowCall.signal_handlers_disconnect_by_func .unminimize_done] }
  let actor := { actor with
    calls := actor.calls ++ [WindowCall.meta_plugin_unminimize_completed] }
  { actor with unminimizing := false, calls := actor.calls ++ [WindowCall.set_unminimizing false] }

/-- The function `destroy_done` (wm.c, lines 789-793). -/
def destroy_done (actor : WindowActor) : WindowActor :=
  let actor := { actor with
    handlers := actor.handlers.filter (fun h => decide (h ≠ DoneHandler.destroy_done))
    calls := actor.calls ++ [WindowCall.signal_handlers_disconnect_by_func .destroy_done] }
  { actor with calls := actor.calls ++ [WindowCall.meta_plugin_destroy_completed] }

/-- The function `map_done` (wm.c, lines 833-837). -/
def map_done (actor : WindowActor) : WindowActor :=
  let actor := { actor with
    handlers := actor.handlers.filter (fun h => decide (h ≠ DoneHandler.map_done))
    calls := actor.calls ++ [WindowCall.signal_handlers_disconnect_by_func .map_done] }
  { actor with calls := actor.calls ++ [WindowCall.meta_plugin_map_completed] }

/-- The function `graphene_wm_minimize` (wm.c, lines 673-700). -/
def graphene_wm_minimize (actor : WindowActor) : WindowActor :=
  let actor := if actor.unminimizing then unminimize_done actor else actor
  let actor := { actor with
    minimizing := true, calls := actor.calls ++ [WindowCall.set_minimizing true] }
  let actor := { actor with calls := actor.calls ++ [WindowCall.remove_all_transitions] }
  let actor := { actor with
    handlers := actor.handlers ++ [DoneHandler.minimize_done]
    calls := actor.calls ++ [WindowCall.signal_connect .minimize_done] }
  { actor with calls := actor.calls ++ [WindowCall.ease] }

/-- The function `graphene_wm_unminimize` (wm.c, lines 714-749). -/
def graphene_wm_unminimize (actor : WindowActor) : WindowActor :=
  let actor := if actor.minimizing then minimize_done actor else actor
  let actor := { actor with
    unminimizing := true, calls := actor.calls ++ [WindowCall.set_unminimizing true] }
  let actor := { actor with visible := true, calls := actor.calls ++ [WindowCall.show] }
  let actor := { actor with calls := actor.calls ++ [WindowCall.remove_all_transitions] }
  let actor := { actor with
    handlers := actor.handlers ++ [DoneHandler.unminimize_done]
    calls := actor.calls ++ [WindowCall.signal_connect .unminimize_done] }
  { actor with calls := actor.calls ++ [WindowCall.ease] }

/-- The window types of the first group of `case` labels in
`graphene_wm_destroy` and `graphene_wm_map`. -/
def animatedWindowType : MetaWindowType → Bool
  | .NORMAL => true
  | .NOTIFICATION => true
  | .DIALOG => true
  | .MODAL_DIALOG => true
  | _ => false

/-- The function `graphene_wm_destroy` (wm.c, lines 758-787); `type` is the
result of `meta_window_get_window_type`. -/
def graphene_wm_destroy (actor : WindowActor) (type : MetaWindowType) : WindowActor :=
  let actor := { actor with calls := actor.calls ++ [WindowCall.remove_all_transitions] }
  match type with
  | .NORMAL | .NOTIFICATION | .DIALOG | .MODAL_DIALOG =>
    let actor := { actor with
      handlers := actor.handlers ++ [DoneHandler.destroy_done]
      calls := actor.calls ++ [WindowCall.signal_connect .destroy_done] }
    { actor with calls := actor.calls ++ [WindowCall.ease] }
  | _ =>
    { actor with calls := actor.calls ++ [WindowCall.meta_plugin_destroy_completed] }

/-- The function `graphene_wm_map` (wm.c, lines 795-831); `type` is the
result of `meta_window_get_window_type` and `role` that of
`meta_window_get_role`. -/
def graphene_wm_map (actor : WindowActor) (type : MetaWindowType) (role : Option String) :
    WindowActor :=
  let actor := { actor with calls := actor.calls ++ [WindowCall.remove_all_transitions] }
  let actor :=
    match type with
    | .NORMAL | .NOTIFICATION | .DIALOG | .MODAL_DIALOG =>
      let actor := { actor with visible := true, calls := actor.calls ++ [WindowCall.show] }
      let actor := { actor with
        handlers := actor.handlers ++ [DoneHandler.map_done]
        calls := actor.calls ++ [WindowCall.signal_connect .map_done] }
      { actor with calls := actor.calls ++ [WindowCall.ease] }
    | _ =>
      { actor with calls := actor.calls ++ [WindowCall.meta_plugin_map_completed] }
  if role = some "GrapheneDock" || role = some "GraphenePopup" then
    { actor with calls := actor.calls ++ [WindowCall.set_shadow_dock] }
  else actor

/-- The callback behind a connected handler. -/
def runDoneHandler : DoneHandler → WindowActor → WindowActor
  | .minimize_done => minimize_done
  | .unminimize_done => unminimize_done
  | .destroy_done => destroy_done
  | .map_done => map_done

/-- One emission of "transitions_completed" on the actor.  GLib walks the
handlers that were connected when the emission started, in the order of
connection, and skips a handler that was disconnected in the meantime. -/
def transitions_completed (actor : WindowActor) : WindowActor :=
  actor.handlers.foldl
    (fun a h => if h ∈ a.handlers then runDoneHandler h a else a) actor

/-- One event on a window actor. -/
inductive WindowEvent where
  | minimize
  | unminimize
  | destroy (type : MetaWindowType)
  | map (type : MetaWindowType) (role : Option String)
  | transitions_completed
  deriving DecidableEq, Repr

/-- The effect of one event on a window actor. -/
def windowStep (actor : WindowActor) : WindowEvent → WindowActor
  | .minimize => graphene_wm_minimize actor
  | .unminimize => graphene_wm_unminimize actor
  | .destroy type => graphene_wm_destroy actor type
  | .map type role => graphene_wm_map actor type role
  | .transitions_completed => transitions_completed actor

/-- A sequence of events on a window actor. -/
def windowRun (actor : WindowActor) : List WindowEvent → WindowActor
  | [] => actor
  | ev :: rest => windowRun (windowStep actor ev) rest

/-- The calls made on a window actor between two states. -/
def windowCalls (before after : WindowActor) : List WindowCall :=
  after.calls.drop before.calls.length

/-- The handler that a request connects and the acknowledgement that the
handler sends. -/
def completedCall : DoneHandler → WindowCall
  | .minimize_done => .meta_plugin_minimize_completed
  | .unminimize_done => .meta_plugin_unminimize_completed
  | .destroy_done => .meta_plugin_destroy_completed
  | .map_done => .meta_plugin_map_completed

/-- Whether a call is one of the four acknowledgements `meta_plugin_*_completed`. -/
def isAcknowledgement : WindowCall → Bool
  | .meta_plugin_minimize_completed => true
  | .meta_plugin_unminimize_completed => true
  | .meta_plugin_destroy_completed => true
  | .meta_plugin_map_completed => true
  | _ => false

/-- The acknowledgements among a list of calls, in order. -/
def acknowledgements (calls : List WindowCall) : List WindowCall :=
  calls.filter isAcknowledgement

/-- The completion handler that a request connects, if it connects one. -/
def requestHandler : WindowEvent → Option DoneHandler
  | .minimize => some .minimize_done
  | .unminimize => some .unminimize_done
  | .destroy type => if animatedWindowType type then some .destroy_done else none
  | .map type _ => if animatedWindowType type then some .map_done else none
  | .transitions_completed => none

/-! ## Window manager: the modal dialog -/

/-- What the dialog code keeps on one dialog actor (the `CmkShadow` that
wraps the content): the content it wraps, its reactivity, whether it is
shown, the scale last set on it (0 or 1) and the number of
`close_dialog_complete` handlers connected to its "transitions_completed". -/
structure DialogActor where
  content : Nat
  reactive : Bool
  visible : Bool
  scale : Nat
  closeHandlers : Nat
  deriving DecidableEq, Repr

/-- A pointer that is not a dialog actor yet. -/
def noDialogActor : DialogActor :=
  { content := 0, reactive := false, visible := false, scale := 1, closeHandlers := 0 }

/-- What the dialog code does to the stage and to the cover group, in order. -/
inductive OverlayCall where
  | signal_connect_close (dialog : Nat)
  | signal_handlers_disconnect_close (dialog : Nat)
  | insert_child_above (dialog : Nat)
  | remove_child (dialog : Nat)
  | show_cover
  | hide_cover
  deriving DecidableEq, Repr

/-- Modelled from the spec: the fields `dialog`, `stage` and `coverGroup` of
`struct _GrapheneWM`, which is declared in `wm.h` and not among the sources,
next to the fields of the modal counter.

* `wm` holds the modal counter and the input region state.
* `dialog` is `self->dialog`, the current dialog actor, `none` for `NULL`.
* `stage` lists the dialog actors that are children of the stage, lowest first.
* `coverVisible` tells whether `coverGroup` is shown; `coverOpacity` is what
  `clutter_actor_get_opacity` returns for it and `coverOpacityTarget` the
  value last given to `clutter_actor_set_opacity`, which an eased transition
  approaches.
* `actors` gives the state of each dialog actor; dialog actors are numbered
  in the order of their creation, `nextActor` being the next number.
* `calls` lists the calls made so far. -/
structure GrapheneWMOverlay where
  wm : GrapheneWM
  dialog : Option Nat
  stage : List Nat
  coverVisible : Bool
  coverOpacity : Nat
  coverOpacityTarget : Nat
  actors : Nat → DialogActor
  nextActor : Nat
  calls : List OverlayCall

/-- The change of one dialog actor. -/
def setDialogActor (self : GrapheneWMOverlay) (dialog : Nat) (actor : DialogActor) :
    GrapheneWMOverlay :=
  { self with actors := fun a => if a = dialog then actor else self.actors a }

/-- The function `close_dialog_complete` (wm.c, lines 573-582). -/
def close_dialog_complete (self : GrapheneWMOverlay) (dialog : Nat) : GrapheneWMOverlay :=
  let self := setDialogActor self dialog { self.actors dialog with closeHandlers := 0 }
  let self := { self with calls := self.calls ++ [OverlayCall.signal_handlers_disconnect_close dialog] }
  let self := { self with
    stage := self.stage.erase dialog, calls := self.calls ++ [OverlayCall.remove_child dialog] }
  if self.dialog = some dialog then
    { self with
      dialog := none, coverVisible := false, calls := self.calls ++ [OverlayCall.hide_cover] }
  else self

/-- The function `graphene_wm_close_dialog` (wm.c, lines 584-610). -/
def graphene_wm_close_dialog (scene : Scene) (self : GrapheneWMOverlay) (closeCover : Bool) :
    GrapheneWMOverlay :=
  let self :=
    match self.dialog with
    | some dialog =>
      let self := setDialogActor self dialog
        { self.actors dialog with closeHandlers := (self.actors dialog).closeHandlers + 1 }
      let self := { self with calls := self.calls ++ [OverlayCall.signal_connect_close dialog] }
      let self := setDialogActor self dialog { self.actors dialog with scale := 0 }
      setDialogActor self dialog { self.actors dialog with reactive := false }
    | none => self
  let self := { self with wm := graphene_wm_end_modal scene self.wm }
  if !closeCover || self.coverOpacity == 0 then self
  else { self with coverOpacityTarget := 0 }

/-- The function `graphene_wm_show_dialog` (wm.c, lines 617-653); `dialog` is
the content actor, `none` for `NULL`. -/
def graphene_wm_show_dialog (scene : Scene) (self : GrapheneWMOverlay) (dialog : Option Nat) :
    GrapheneWMOverlay :=
  let self :=
    if dialog.isNone || (dialog.isSome && self.dialog.isSome) then
      graphene_wm_close_dialog scene self dialog.isNone
    else self
  match dialog with
  | none => self
  | some content =>
    let shadow := self.nextActor
    let self := { self with nextActor := self.nextActor + 1 }
    let self := setDialogActor self shadow { noDialogActor with content := content }
    let self := { self with dialog := some shadow }
    let self := { self with
      stage := self.stage ++ [shadow], calls := self.calls ++ [OverlayCall.insert_child_above shadow] }
    let self := setDialogActor self shadow { self.actors shadow with visible := true }
    let self := setDialogActor self shadow { self.actors shadow with scale := 0 }
    let self := setDialogActor self shadow { self.actors shadow with scale := 1 }
    let self := setDialogActor self shadow { self.actors shadow with reactive := true }
    let self := { self with coverVisible := true, calls := self.calls ++ [OverlayCall.show_cover] }
    let self := { self with coverOpacityTarget := 255 }
    { self with wm := graphene_wm_begin_modal scene self.wm }

/-- The walk of an emission over `n` connected `close_dialog_complete`
handlers of a dialog actor: a handler runs if it is still connected. -/
def emitCloseHandlers (dialog : Nat) : Nat → GrapheneWMOverlay → GrapheneWMOverlay
  | 0, self => self
  | n + 1, self =>
    emitCloseHandlers dialog n
      (if 0 < (self.actors dialog).closeHandlers then close_dialog_complete self dialog
       else self)

/-- One emission of "transitions_completed" on a dialog actor. -/
def dialog_transitions_completed (self : GrapheneWMOverlay) (dialog : Nat) :
    GrapheneWMOverlay :=
  emitCloseHandlers dialog (self.actors dialog).closeHandlers self

/-- The calls made on the stage and the cover between two states. -/
def overlayCalls (before after : GrapheneWMOverlay) : List OverlayCall :=
  after.calls.drop before.calls.length

/-- The overlay part of the window manager at the end of `graphene_wm_start`
(wm.c, lines 182-206), `wm` being the modal and input region state reached
before: no dialog, the cover group created (opacity 255) and shown, and the
modal session begun. -/
def overlayStart (scene : Scene) (wm : GrapheneWM) : GrapheneWMOverlay :=
  { wm := graphene_wm_begin_modal scene wm
    dialog := none
    stage := []
    coverVisible := true
    coverOpacity := 255
    coverOpacityTarget := 255
    actors := fun _ => noDialogActor
    nextActor := 0
    calls := [OverlayCall.show_cover] }

/-- The window manager after start with the panel bar of `panelScene`
registered, showing a first dialog with content actor 7. -/
def overlayWithDialog : GrapheneWMOverlay :=
  graphene_wm_show_dialog panelScene (overlayStart panelScene wmPanel) (some 7)

/-- One event on the overlay: a call of `graphene_wm_show_dialog`, with a
content actor or with `NULL`, or an emission of "transitions_completed" on a
dialog actor (the completion of its close transition when a close handler is
connected). -/
inductive OverlayEvent where
  | show_dialog (dialog : Option Nat)
  | transitions_completed (dialog : Nat)
  deriving DecidableEq, Repr

/-- The effect of one overlay event in the scene current when it happens. -/
def overlayStep (scene : Scene) (self : GrapheneWMOverlay) : OverlayEvent → GrapheneWMOverlay
  | .show_dialog dialog => graphene_wm_show_dialog scene self dialog
  | .transitions_completed dialog => dialog_transitions_completed self dialog

/-- A sequence of overlay events, each with the scene current when it happens. -/
def overlayRun (self : GrapheneWMOverlay) : List (Scene × OverlayEvent) → GrapheneWMOverlay
  | [] => self
  | (scene, ev) :: rest => overlayRun (overlayStep scene self ev) rest

/-- The invariant that ties the cover to the current dialog: with a current
dialog the cover is shown, and once `close_dialog_complete` has hidden the
cover, the cover is shown exactly when there is a current dialog. -/
def CoverInv (s : GrapheneWMOverlay) : Prop :=
  (s.dialog ≠ none → s.coverVisible = true)
  ∧ (OverlayCall.hide_cover ∈ s.calls → (s.coverVisible = true ↔ s.dialog ≠ none))

/-- The calls `graphene_wm_show_dialog (self, NULL)`, one in each of the given scenes. -/
def closeRequests (scenes : List Scene) : List (Scene × OverlayEvent) :=
  scenes.map (fun scene => (scene, OverlayEvent.show_dialog none))

/-! ## Window manager: scene assembly -/

/-- Mutter's `MetaRectangle`: `int x, y, width, height`. -/
structure MetaRectangle where
  x : Int
  y : Int
  width : Int
  height : Int
  deriving DecidableEq, Repr

/-- What `on_monitors_changed` reads from the `MetaScreen`: the geometry of
each monitor (`meta_screen_get_n_monitors` is the length of the list) and the
index that `meta_screen_get_primary_monitor` returns. -/
structure MetaScreen where
  monitors : List MetaRectangle
  primary : Nat
  deriving DecidableEq, Repr

/-- The function `meta_rect`. -/
def meta_rect (x y width height : Int) : MetaRectangle :=
  { x := x, y := y, width := width, height := height }

/-- Mutter's `meta_screen_get_monitor_geometry`: it writes the geometry of
the monitor to `rect` and leaves `rect` as it is for an index that is not a
monitor. -/
def meta_screen_get_monitor_geometry (screen : MetaScreen) (monitor : Nat)
    (rect : MetaRectangle) : MetaRectangle :=
  (screen.monitors[monitor]?).getD rect

/-- Position and size of the dialog actor, `gfloat` values as rationals. -/
structure DialogGeometry where
  x : ℚ
  y : ℚ
  width : ℚ
  height : ℚ
  deriving DecidableEq

/-- The geometry that `on_monitors_changed` sets.

* `backgrounds` are the children of the background group: the monitor index
  each was made for.
* `covers` are the children of the cover group: position and size of each.
* `percentBar`, `panel` and `notificationBox` are position and size of the
  three actors.
* `dialog` is the geometry of `self->dialog`, `none` for `NULL`. -/
structure SceneLayout where
  backgrounds : List Nat
  covers : List MetaRectangle
  percentBar : MetaRectangle
  dialog : Option DialogGeometry
  panel : MetaRectangle
  notificationBox : MetaRectangle
  deriving DecidableEq

/-- The function `center_actor_on_primary` (wm.c, lines 656-669) on the
geometry of an actor. -/
def center_actor_on_primary (screen : MetaScreen) (actor : DialogGeometry) : DialogGeometry :=
  let rect := meta_screen_get_monitor_geometry screen screen.primary (meta_rect 0 0 0 0)
  { actor with
    x := (rect.x : ℚ) + (rect.width : ℚ) / 2 - actor.width / 2
    y := (rect.y : ℚ) + (rect.height : ℚ) / 2 - actor.height / 2 }

/-- The loop of `on_monitors_changed` over the monitors `i`, `i + 1`, ...:
the background and the cover made for each. -/
def monitorsLoop (screen : MetaScreen) : Nat → Nat → List Nat × List MetaRectangle
  | _, 0 => ([], [])
  | i, n + 1 =>
    let rect := meta_screen_get_monitor_geometry screen i (meta_rect 0 0 0 0)
    let r := monitorsLoop screen (i + 1) n
    (i :: r.1, rect :: r.2)

/-- The function `on_monitors_changed` (wm.c, lines 209-251).  `stack` is
the value of the local `primary` before it is written, which the code does
not initialise.  The divisions are divisions of `int`. -/
def on_monitors_changed (screen : MetaScreen) (stack : MetaRectangle) (self : SceneLayout) :
    SceneLayout :=
  let self := { self with backgrounds := [], covers := [] }
  let numMonitors := screen.monitors.length
  let made := monitorsLoop screen 0 numMonitors
  let self := { self with backgrounds := made.1, covers := made.2 }
  let primary := meta_screen_get_monitor_geometry screen screen.primary stack
  let self := { self with percentBar := { self.percentBar with y := primary.y + 30 } }
  let self := { self with percentBar := { self.percentBar with
    x := primary.x + Int.tdiv primary.width 2 - Int.tdiv primary.width 8 } }
  let self := { self with percentBar := { self.percentBar with
    width := Int.tdiv primary.width 4 } }
  let self := { self with percentBar := { self.percentBar with height := 20 } }
  let self :=
    match self.dialog with
    | some dialog => { self with dialog := some (center_actor_on_primary screen dialog) }
    | none => self
  let self := { self with panel := meta_rect primary.x primary.y primary.width primary.height }
  { self with
    notificationBox := meta_rect primary.x primary.y primary.width primary.height }

/-- A screen of two monitors, the second one primary. -/
def twoMonitors : MetaScreen :=
  { monitors := [meta_rect 0 0 1920 1080, meta_rect 1920 0 1280 1024], primary := 1 }

/-- A screen with no monitor, as when the last one is unplugged:
`meta_screen_get_n_monitors` is 0 and `meta_screen_get_primary_monitor` is 0. -/
def noMonitors : MetaScreen :=
  { monitors := [], primary := 0 }

/-- A layout before any monitor was seen, with a dialog of 400 by 300. -/
def layoutWithDialog : SceneLayout :=
  { backgrounds := [], covers := [], percentBar := meta_rect 0 0 0 0,
    dialog := some { x := 0, y := 0, width := 400, height := 300 },
    panel := meta_rect 0 0 0 0, notificationBox := meta_rect 0 0 0 0 }

/-! ## Window manager: the window wrapper -/

/-- What `graphene_window_update` reads from the `MetaWindow`: title,
window class and instance class (`none` for `NULL`) and the four properties
it gets with `g_object_get`. -/
structure MetaWindow where
  title : Option String
  wm_class : Option String
  wm_class_instance : Option String
  minimized : Bool
  demands_attention : Bool
  appears_focused : Bool
  skip_taskbar : Bool
  deriving DecidableEq, Repr

/-- The flags of a `GrapheneWindow`.  Their values are in `window.h`, which
is not among the sources; `NORMAL` is the value the flags start from. -/
inductive GrapheneWindowFlag where
  | MINIMIZED
  | ATTENTION
  | FOCUSED
  | SKIP_TASKBAR
  deriving DecidableEq, Repr

/-- The fields of `GrapheneWindow` that `graphene_window_update` writes;
`flags` lists the flags that are set on top of `GRAPHENE_WINDOW_FLAG_NORMAL`. -/
structure GrapheneWindow where
  title : Option String
  icon : Option String
  flags : List GrapheneWindowFlag
  deriving DecidableEq, Repr

/-- The function `graphene_window_update` (wm.c, lines 313-343).
`g_utf8_strdown` is GLib's lower-casing of a UTF-8 string. -/
def graphene_window_update (g_utf8_strdown : String → String) (window : MetaWindow)
    (cwindow : GrapheneWindow) : GrapheneWindow :=
  let cwindow := { cwindow with title := window.title }
  let icon := window.wm_class
  let icon := if icon.isNone then window.wm_class_instance else icon
  let cwindow :=
    match icon with
    | none => { cwindow with icon := none }
    | some name => { cwindow with icon := some (g_utf8_strdown name) }
  let cwindow := { cwindow with flags := [] }
  let cwindow :=
    if window.minimized then { cwindow with flags := cwindow.flags ++ [.MINIMIZED] } else cwindow
  let cwindow :=
    if window.demands_attention then { cwindow with flags := cwindow.flags ++ [.ATTENTION] }
    else cwindow
  let cwindow :=
    if window.appears_focused then { cwindow with flags := cwindow.flags ++ [.FOCUSED] }
    else cwindow
  if window.skip_taskbar then { cwindow with flags := cwindow.flags ++ [.SKIP_TASKBAR] }
  else cwindow

/-- A window wrapper as `g_new0` makes it. -/
def newGrapheneWindow : GrapheneWindow :=
  { title := none, icon := none, flags := [] }

/-- A window with no window class and the instance class "Nautilus". -/
def filesWindow : MetaWindow :=
  { title := some "Files", wm_class := none, wm_class_instance := some "Nautilus",
    minimized := false, demands_attention := false, appears_focused := true,
    skip_taskbar := false }

/-! ## The dialog widget: allocation -/

/-- The constant `ICON_SIZE` of dialog.c. -/
def ICON_SIZE : ℚ := 48

/-- A `ClutterActorBox` with its `gfloat` coordinates as rationals. -/
structure FloatBox where
  x1 : ℚ
  y1 : ℚ
  x2 : ℚ
  y2 : ℚ
  deriving DecidableEq

/-- The children that `graphene_dialog_allocate` allocates. -/
inductive DialogChild where
  | icon
  | buttonBox
  | message
  | content
  deriving DecidableEq, Repr

/-- The allocations that `graphene_dialog_allocate` makes, in order: those of
children with `clutter_actor_allocate` and that of the parent class. -/
inductive AllocateCall where
  | clutter_actor_allocate (child : DialogChild) (box : FloatBox)
  | parent_allocate (box : FloatBox)
  deriving DecidableEq

/-- The fields of `GrapheneDialogPrivate` that the allocation tests: whether
`message`, `content` and `icon` are set (not `NULL`).  The button box always
exists. -/
structure GrapheneDialogPrivate where
  message : Bool
  content : Bool
  icon : Bool
  deriving DecidableEq, Repr

/-- The function `_clutter_actor_box_valid` (dialog.c, lines 260-263). -/
def clutter_actor_box_valid (box : FloatBox) : Bool :=
  decide (box.x2 - box.x1 > 0) && decide (box.y2 - box.y1 > 0)

/-- The function `graphene_dialog_allocate` (dialog.c, lines 265-346): the
allocations it makes, in order.  `dp`, `wPad` and `hPad` are the values of
the locals of these names, which the code computes with functions of libcmk
that are not among the sources; `bbHeight` is what
`clutter_actor_get_preferred_height` writes to `bbHeightNat` for the button
box, and `messageHeight w` what it writes to `messageHeightNat` for the
message at width `w`. -/
def graphene_dialog_allocate (priv : GrapheneDialogPrivate) (dp wPad hPad bbHeight : ℚ)
    (messageHeight : ℚ → ℚ) (box : FloatBox) : List AllocateCall :=
  let padBox : FloatBox :=
    { x1 := wPad, y1 := hPad, x2 := (box.x2 - box.x1) - wPad, y2 := (box.y2 - box.y1) - hPad }
  if !clutter_actor_box_valid padBox then [AllocateCall.parent_allocate box]
  else
    let bodyBox := padBox
    let iconBox : FloatBox :=
      { x1 := padBox.x1 + wPad / 2, y1 := padBox.y1 + hPad / 2,
        x2 := padBox.x1 + ICON_SIZE * dp + wPad / 2, y2 := padBox.y1 + ICON_SIZE * dp + hPad / 2 }
    let bodyBox := if priv.icon then { bodyBox with x1 := iconBox.x2 + wPad / 2 } else bodyBox
    let calls := if priv.icon then [AllocateCall.clutter_actor_allocate .icon iconBox] else []
    let bbHeightNat := bbHeight
    let buttonBox : FloatBox :=
      { x1 := padBox.x1, y1 := padBox.y2 - bbHeightNat, x2 := padBox.x2, y2 := padBox.y2 }
    let bodyBox := { bodyBox with y2 := buttonBox.y1 - hPad }
    let calls := calls ++ [AllocateCall.clutter_actor_allocate .buttonBox buttonBox]
    let messageHeightNat :=
      if priv.message then messageHeight (bodyBox.x2 - bodyBox.x1 - wPad - wPad) else 0
    let messageBox : FloatBox :=
      { x1 := bodyBox.x1 + wPad, y1 := bodyBox.y1 + hPad, x2 := bodyBox.x2 - wPad,
        y2 := min (bodyBox.y2 - hPad) (bodyBox.y1 + hPad + messageHeightNat) }
    if !clutter_actor_box_valid messageBox then calls ++ [AllocateCall.parent_allocate box]
    else
      let calls :=
        if priv.message then calls ++ [AllocateCall.clutter_actor_allocate .message messageBox]
        else calls
      let bodyBox := { bodyBox with y1 := messageBox.y2 }
      let contentBox : FloatBox :=
        { x1 := bodyBox.x1 + wPad, y1 := bodyBox.y1 + hPad, x2 := bodyBox.x2 - wPad,
          y2 := bodyBox.y2 - hPad }
      if !clutter_actor_box_valid contentBox then calls ++ [AllocateCall.parent_allocate box]
      else
        let calls :=
          if priv.content then calls ++ [AllocateCall.clutter_actor_allocate .content contentBox]
          else calls
        calls ++ [AllocateCall.parent_allocate box]

/-- A dialog with a content actor, no message and no icon. -/
def contentOnlyDialog : GrapheneDialogPrivate :=
  { message := false, content := true, icon := false }

/-- A box of 400 by 300. -/
def dialogBox : FloatBox := { x1 := 0, y1 := 0, x2 := 400, y2 := 300 }

/-! ## The scroll box -/

/-- A `ClutterPoint` with its `gfloat` coordinates as rationals. -/
structure ClutterPoint where
  x : ℚ
  y : ℚ
  deriving DecidableEq

/-- The struct `_CmkScrollBoxPrivate` and the child transform of the actor:
`horizontally` and `vertically` are the bits `CLUTTER_SCROLL_HORIZONTALLY` and
`CLUTTER_SCROLL_VERTICALLY` of `scrollMode`, `childTransform` the translation
last given to `clutter_actor_set_child_transform`. -/
structure CmkScrollBox where
  horizontally : Bool
  vertically : Bool
  scroll : ClutterPoint
  childTransform : ClutterPoint
  deriving DecidableEq

/-- The function `scroll_to` (cmk-scroll-box.c, lines 84-125).  `width` and
`height` are the size of the actor and `natW`, `natH` its natural size from
`clutter_actor_get_preferred_size`. -/
def scroll_to (self : CmkScrollBox) (width height natW natH : ℚ) (point : ClutterPoint)
    (exact : Bool) : CmkScrollBox :=
  let new := point
  let new :=
    if !exact then
      let new :=
        if new.x ≥ self.scroll.x ∧ new.x ≤ self.scroll.x + height then
          { new with x := self.scroll.x }
        else new
      if new.y ≥ self.scroll.y ∧ new.y ≤ self.scroll.y + height then
        { new with y := self.scroll.y }
      else new
    else new
  if self.scroll = new then self
  else
    let maxScrollW := max (natW - width) 0
    let maxScrollH := max (natH - height) 0
    let new : ClutterPoint :=
      { x := min (max 0 new.x) maxScrollW, y := min (max 0 new.y) maxScrollH }
    if self.scroll = new then self
    else
      { self with
        scroll := new
        childTransform :=
          { x := if self.horizontally then -new.x else 0
            y := if self.vertically then -new.y else 0 } }

/-- A scroll box that scrolls both ways and is not scrolled. -/
def scrollBoxAtOrigin : CmkScrollBox :=
  { horizontally := true, vertically := true, scroll := { x := 0, y := 0 },
    childTransform := { x := 0, y := 0 } }

/-! ## GLib: `g_list_sort` -/

section GList
variable {α : Type}

/-- The inner part of `g_list_sort_merge` once the head `a` of the first list
is fixed: walks the second list while its heads go first.  `cont` merges the
rest of the first list. -/
def mergeHead (compare_func : α → α → Int) (a : α) (l1 : List α)
    (cont : List α → List α) : List α → List α
  | [] => a :: l1
  | b :: l2 =>
    if compare_func a b ≤ 0 then a :: cont (b :: l2)
    else b :: mergeHead compare_func a l1 cont l2

/-- GLib's `g_list_sort_merge` (glist.c): while both lists are non-empty it
takes the head of `l1` when `compare_func (l1->data, l2->data) <= 0` and the
head of `l2` otherwise; then it appends what is left. -/
def g_list_sort_merge (compare_func : α → α → Int) : List α → List α → List α
  | [], l2 => l2
  | a :: l1, l2 => mergeHead compare_func a l1 (g_list_sort_merge compare_func l1) l2

/-- GLib's `g_list_sort_real` (glist.c): a list of fewer than two nodes is
returned as it is; otherwise the list is cut after its first `n / 2` nodes,
both parts are sorted and merged.  The first argument bounds the depth of the
recursion. -/
def g_list_sort_real (compare_func : α → α → Int) : Nat → List α → List α
  | 0, list => list
  | fuel + 1, list =>
    if list.length < 2 then list
    else
      g_list_sort_merge compare_func
        (g_list_sort_real compare_func fuel (list.take (list.length / 2)))
        (g_list_sort_real compare_func fuel (list.drop (list.length / 2)))

/-- GLib's `g_list_sort`.  The length of the list is enough depth, as each
part of a list of two or more nodes is shorter than the list. -/
def g_list_sort (list : List α) (compare_func : α → α → Int) : List α :=
  g_list_sort_real compare_func list.length list

end GList

/-! ## Notification box -/

/-- The constant `NOTIFICATION_DEFAULT_SHOW_TIME`, in ms. -/
def NOTIFICATION_DEFAULT_SHOW_TIME : Int := 5000
/-- The constant `NOTIFICATION_URGENCY_LOW`. -/
def NOTIFICATION_URGENCY_LOW : Int := 0
/-- The constant `NOTIFICATION_URGENCY_NORMAL`. -/
def NOTIFICATION_URGENCY_NORMAL : Int := 1
/-- The constant `NOTIFICATION_URGENCY_CRITICAL`. -/
def NOTIFICATION_URGENCY_CRITICAL : Int := 2
/-- The constant `NOTIFICATION_SPACING`, in pixels. -/
def NOTIFICATION_SPACING : Nat := 20
/-- The constant `NOTIFICATION_WIDTH`. -/
def NOTIFICATION_WIDTH : Nat := 320
/-- The constant `NOTIFICATION_HEIGHT`. -/
def NOTIFICATION_HEIGHT : Nat := 60

/-- The number of values of a `guint32`. -/
def UINT32_SIZE : Nat := 4294967296

/-- The struct `_GrapheneNotification`.  `timeoutSource` stands for
`timeoutSourceId`: `none` when the id is 0, `some ms` when a GLib timeout of
`ms` milliseconds is armed that removes the notification.  `icon` and `text`
are the icon name and the markup set on the two child actors. -/
structure GrapheneNotification where
  id : Nat
  urgency : Int
  timeout : Int
  timeoutSource : Option Int
  icon : String
  text : String
  deriving DecidableEq, Repr

/-- The struct `_GrapheneNotificationBox`; `children` are the child actors of
the box in the order of `clutter_actor_get_children` (oldest first). -/
structure GrapheneNotificationBox where
  dbusNameId : Nat
  nextNotificationId : Nat
  failNotificationId : Nat
  children : List GrapheneNotification
  deriving DecidableEq, Repr

/-- The function `graphene_notification_new`: a zero-filled instance after
`graphene_notification_init`. -/
def graphene_notification_new : GrapheneNotification :=
  { id := 0, urgency := 0, timeout := 0, timeoutSource := none, icon := "", text := "" }

/-- The function `graphene_notification_stop_timeout`. -/
def graphene_notification_stop_timeout (self : GrapheneNotification) : GrapheneNotification :=
  { self with timeoutSource := none }

/-- The function `graphene_notification_set_timeout`. -/
def graphene_notification_set_timeout (self : GrapheneNotification) (timeout : Int) :
    GrapheneNotification :=
  let self := graphene_notification_stop_timeout self
  let timeout := if timeout < 0 then NOTIFICATION_DEFAULT_SHOW_TIME else timeout
  let self := { self with timeout := timeout }
  if 0 < timeout then { self with timeoutSource := some timeout } else self

/-- The function `graphene_notification_enter`. -/
def graphene_notification_enter (self : GrapheneNotification) : GrapheneNotification :=
  graphene_notification_stop_timeout self

/-- The function `graphene_notification_leave`. -/
def graphene_notification_leave (self : GrapheneNotification) : GrapheneNotification :=
  graphene_notification_set_timeout self self.timeout

/-- The function `get_notification_by_id`: the first child with the id. -/
def get_notification_by_id (self : GrapheneNotificationBox) (id : Nat) :
    Option GrapheneNotification :=
  self.children.find? (fun child => child.id == id)

/-- The function `remove_notification`: `clutter_actor_destroy` takes the
notification out of the children of its box. -/
def remove_notification (self : GrapheneNotificationBox) (n : GrapheneNotification) :
    GrapheneNotificationBox :=
  { self with children := self.children.erase n }

/-- The function `add_notification`: `clutter_actor_add_child` puts the
notification after the present children. -/
def add_notification (self : GrapheneNotificationBox) (n : GrapheneNotification) :
    GrapheneNotificationBox :=
  { self with children := self.children ++ [n] }

/-- The function `remove_server_fail_notification`. -/
def remove_server_fail_notification (self : GrapheneNotificationBox) :
    GrapheneNotificationBox :=
  if self.failNotificationId = 0 then self
  else
    let self :=
      match get_notification_by_id self self.failNotificationId with
      | some n => remove_notification self n
      | none => self
    { self with failNotificationId := 0 }

/-- The function `post_server_fail_notification`.  The id of the new
notification is the value of `nextNotificationId` after the pre-increment,
which is a `guint32` and wraps. -/
def post_server_fail_notification (self : GrapheneNotificationBox) :
    GrapheneNotificationBox :=
  let self := remove_server_fail_notification self
  let n := graphene_notification_new
  let self := { self with nextNotificationId := (self.nextNotificationId + 1) % UINT32_SIZE }
  let n := { n with id := self.nextNotificationId }
  let n := { n with urgency := NOTIFICATION_URGENCY_CRITICAL }
  let n := { n with icon := "dialog-warning-symbolic" }
  let n := { n with text := "<b>System Notifications Failed</b>\nYou may need to relog." }
  add_notification self n

/-- The function `graphene_notification_box_init`; `dbusNameId` is what
`g_bus_own_name` returns. -/
def graphene_notification_box_init (dbusNameId : Nat) : GrapheneNotificationBox :=
  let self : GrapheneNotificationBox :=
    { dbusNameId := dbusNameId, nextNotificationId := 1, failNotificationId := 0, children := [] }
  if self.dbusNameId = 0 then post_server_fail_notification self else self

/-- The function `on_dbus_name_acquired`. -/
def on_dbus_name_acquired (self : GrapheneNotificationBox) : GrapheneNotificationBox :=
  remove_server_fail_notification self

/-- The function `on_dbus_name_lost`. -/
def on_dbus_name_lost (self : GrapheneNotificationBox) : GrapheneNotificationBox :=
  post_server_fail_notification self

/-- The function `on_dbus_call_notify`; the result is the box and the id
handed to `dbus_notifications_complete_notify`.  The timeout is set on the
notification that was just added to the box. -/
def on_dbus_call_notify (self : GrapheneNotificationBox) (app_name : String)
    (replaces_id : Nat) (app_icon summary body : String) (actions : List String)
    (hints : List (String × String)) (expire_timeout : Int) :
    GrapheneNotificationBox × Nat :=
  let self := remove_server_fail_notification self
  let n := graphene_notification_new
  let self := { self with nextNotificationId := (self.nextNotificationId + 1) % UINT32_SIZE }
  let n := { n with id := self.nextNotificationId }
  let n := { n with urgency := NOTIFICATION_URGENCY_NORMAL }
  let n := { n with icon := app_icon }
  let n := { n with text := "<b>" ++ summary ++ "</b>  " ++ body }
  let n := graphene_notification_set_timeout n expire_timeout
  (add_notification self n, n.id)

/-- The function `on_dbus_call_close_notification`. -/
def on_dbus_call_close_notification (self : GrapheneNotificationBox) (id : Nat) :
    GrapheneNotificationBox :=
  match get_notification_by_id self id with
  | some n => remove_notification self n
  | none => self

/-- The function `notification_compare_func`. -/
def notification_compare_func (a b : GrapheneNotification) : Int :=
  if a.id < b.id then 1 else -1

/-- A `ClutterActorBox` before it is scaled to device pixels; its `gfloat`
fields hold whole numbers here. -/
structure ClutterActorBox where
  x1 : Int
  y1 : Int
  x2 : Int
  y2 : Int
  deriving DecidableEq, Repr

/-- Rounding of a natural number to a multiple of `2 ^ e`, to the nearest one
and, half way between two, to the one whose quotient by `2 ^ e` is even. -/
def roundToEven (e n : Nat) : Nat :=
  let q := n / 2 ^ e
  let r := n % 2 ^ e
  if 2 * r < 2 ^ e then q * 2 ^ e
  else if 2 ^ e < 2 * r then (q + 1) * 2 ^ e
  else if q % 2 = 0 then q * 2 ^ e
  else (q + 1) * 2 ^ e

/-- The number of low bits of `n` that do not fit the 24-bit significand of
a `gfloat`; the first argument bounds the number of halvings. -/
def excessBits : Nat → Nat → Nat
  | 0, _ => 0
  | fuel + 1, n => if n < 2 ^ 24 then 0 else excessBits fuel (n / 2) + 1

/-- The value of an unsigned integer below 2^64 after its conversion to
`gfloat` (IEEE single precision, round to nearest, ties to even). -/
def uintToGfloat (n : Nat) : Nat :=
  roundToEven (excessBits 64 n) n

/-- The box that the loop of `graphene_notification_box_allocate` computes
for position `i`, before `cmk_scale_actor_box` scales it.  The product with
the `guint` counter is unsigned 32-bit arithmetic, each assignment to a field
converts to `gfloat`, and the two sums are sums of `gfloat` values. -/
def allocationBox (i : Nat) : ClutterActorBox :=
  let x1 := uintToGfloat NOTIFICATION_SPACING
  let y1 := uintToGfloat
    ((NOTIFICATION_SPACING + i * (NOTIFICATION_HEIGHT + NOTIFICATION_SPACING)) % UINT32_SIZE)
  let x2 := uintToGfloat (x1 + NOTIFICATION_WIDTH)
  let y2 := uintToGfloat (y1 + NOTIFICATION_HEIGHT)
  { x1 := (x1 : Int), y1 := (y1 : Int), x2 := (x2 : Int), y2 := (y2 : Int) }

/-- The loop of `graphene_notification_box_allocate` over the sorted
children: the child at position `i` gets its box; `i` is a `guint`. -/
def allocateLoop : Nat → List GrapheneNotification → List (GrapheneNotification × ClutterActorBox)
  | _, [] => []
  | i, n :: rest => (n, allocationBox i) :: allocateLoop ((i + 1) % UINT32_SIZE) rest

/-- The function `graphene_notification_box_allocate`: the children in the
order in which they are stacked, each with the box it is allocated. -/
def graphene_notification_box_allocate (self : GrapheneNotificationBox) :
    List (GrapheneNotification × ClutterActorBox) :=
  let children := g_list_sort self.children notification_compare_func
  allocateLoop 0 children

/-- One call on a notification box that creates a notification. -/
inductive BoxCall where
  | notify (app_name : String) (replaces_id : Nat) (app_icon summary body : String)
      (actions : List String) (hints : List (String × String)) (expire_timeout : Int)
  | post_server_fail
  deriving DecidableEq, Repr

/-- The effect of one call: the box after it and the id given to the
notification it created. -/
def boxCall (self : GrapheneNotificationBox) : BoxCall → GrapheneNotificationBox × Nat
  | .notify app_name replaces_id app_icon summary body actions hints expire_timeout =>
    on_dbus_call_notify self app_name replaces_id app_icon summary body actions hints
      expire_timeout
  | .post_server_fail =>
    let self := post_server_fail_notification self
    (self, self.nextNotificationId)

/-- The ids assigned by a sequence of calls, in the order of assignment. -/
def assignedIds (self : GrapheneNotificationBox) : List BoxCall → List Nat
  | [] => []
  | call :: rest => (boxCall self call).2 :: assignedIds (boxCall self call).1 rest

/-- The ids assigned on a box since its construction: the one that
`graphene_notification_box_init` assigns when the bus name could not be
requested, then those of the calls. -/
def idsSinceInit (dbusNameId : Nat) (calls : List BoxCall) : List Nat :=
  (graphene_notification_box_init dbusNameId).children.map (fun n => n.id)
    ++ assignedIds (graphene_notification_box_init dbusNameId) calls

/-- A pointer crossing event on a notification. -/
inductive PointerEvent where
  | enter
  | leave
  deriving DecidableEq, Repr

/-- The effect of a sequence of pointer crossing events on a notification:
`graphene_notification_enter` and `graphene_notification_leave` in turn. -/
def pointerRun (self : GrapheneNotification) : List PointerEvent → GrapheneNotification
  | [] => self
  | .enter :: rest => pointerRun (graphene_notification_enter self) rest
  | .leave :: rest => pointerRun (graphene_notification_leave self) rest

/-- A pointer-enter followed by a pointer-leave, `k` times in a row. -/
def hoverCycles : Nat → GrapheneNotification → GrapheneNotification
  | 0, self => self
  | k + 1, self =>
    hoverCycles k (graphene_notification_leave (graphene_notification_enter self))

/-- A box whose bus name was requested with success and then lost: the
failure notification is displayed. -/
def boxNameLost : GrapheneNotificationBox :=
  on_dbus_name_lost (graphene_notification_box_init 1)

/-- A box that displays 838862 notifications, with the ids 2 to 838863. -/
def crowdedBox : GrapheneNotificationBox :=
  { dbusNameId := 1, nextNotificationId := 838863, failNotificationId := 0,
    children := (List.range 838862).map (fun k => { graphene_notification_new with id := k + 2 }) }

/-! ## Theorems: the modal counter -/

theorem calc_modalCount (scene : Scene) (s : GrapheneWM) :
    (xfixes_calculate_input_region scene s).modalCount = s.modalCount := by
  unfold xfixes_calculate_input_region
  simp only []
  split
  · rfl
  · split
    · rfl
    · split <;> rfl

theorem calc_grab (scene : Scene) (s : GrapheneWM) :
    (xfixes_calculate_input_region scene s).grab = s.grab := by
  unfold xfixes_calculate_input_region
  simp only []
  split
  · rfl
  · split
    · rfl
    · split <;> rfl

theorem calc_wayland (scene : Scene) (s : GrapheneWM) :
    (xfixes_calculate_input_region scene s).wayland = s.wayland := by
  unfold xfixes_calculate_input_region
  simp only []
  split
  · rfl
  · split
    · rfl
    · split <;> rfl

theorem calc_xInputActors (scene : Scene) (s : GrapheneWM) :
    (xfixes_calculate_input_region scene s).xInputActors = s.xInputActors := by
  unfold xfixes_calculate_input_region
  simp only []
  split
  · rfl
  · split
    · rfl
    · split <;> rfl

theorem calc_log (scene : Scene) (s : GrapheneWM) :
    (xfixes_calculate_input_region scene s).log
      = s.log ++ [Call.xfixes_calculate_input_region] := by
  unfold xfixes_calculate_input_region
  simp only []
  split
  · rfl
  · split
    · rfl
    · split <;> rfl

theorem calc_grabOp (scene : Scene) (s : GrapheneWM) :
    (xfixes_calculate_input_region scene s).grabOp = s.grabOp := by
  unfold xfixes_calculate_input_region
  simp only []
  split
  · rfl
  · split
    · rfl
    · split <;> rfl

/-- What `meta_plugin_begin_modal` changes: the log, and the grab when it
can be taken. -/
theorem meta_plugin_begin_modal_fields (s : GrapheneWM) :
    (meta_plugin_begin_modal s).1.modalCount = s.modalCount
    ∧ (meta_plugin_begin_modal s).1.wayland = s.wayland
    ∧ (meta_plugin_begin_modal s).1.log = s.log ++ [Call.meta_plugin_begin_modal]
    ∧ (meta_plugin_begin_modal s).1.grab = (s.grab || !s.grabOp)
    ∧ (meta_plugin_begin_modal s).1.grabOp = s.grabOp := by
  unfold meta_plugin_begin_modal
  cases hg : s.grab <;> cases ho : s.grabOp <;> simp [hg, ho]

theorem begin_modal_modalCount (scene : Scene) (s : GrapheneWM) :
    (graphene_wm_begin_modal scene s).modalCount = s.modalCount + 1 := by
  unfold graphene_wm_begin_modal
  split
  · rfl
  · simp [calc_modalCount, (meta_plugin_begin_modal_fields _).1]

theorem begin_modal_grab (scene : Scene) (s : GrapheneWM) :
    (graphene_wm_begin_modal scene s).grab
      = (if 0 < s.modalCount then s.grab else (s.grab || !s.grabOp)) := by
  unfold graphene_wm_begin_modal
  split
  · rfl
  · simp [calc_grab, (meta_plugin_begin_modal_fields _).2.2.2.1]

theorem begin_modal_grabOp (scene : Scene) (s : GrapheneWM) :
    (graphene_wm_begin_modal scene s).grabOp = s.grabOp := by
  unfold graphene_wm_begin_modal
  split
  · rfl
  · simp [calc_grabOp, (meta_plugin_begin_modal_fields _).2.2.2.2]

theorem end_modal_grabOp (scene : Scene) (s : GrapheneWM) :
    (graphene_wm_end_modal scene s).grabOp = s.grabOp := by
  unfold graphene_wm_end_modal
  simp only []
  split
  · rfl
  · simp [calc_grabOp]

theorem add_grabOp (scene : Scene) (s : GrapheneWM) (a : Nat) :
    (xfixes_add_input_actor scene s a).grabOp = s.grabOp := by
  unfold xfixes_add_input_actor
  split
  · rfl
  · split
    · rfl
    · simp [calc_grabOp]

theorem remove_grabOp (scene : Scene) (s : GrapheneWM) (a : Nat) :
    (xfixes_remove_input_actor scene s a).grabOp = s.grabOp := by
  unfold xfixes_remove_input_actor
  split
  · rfl
  · split
    · rfl
    · simp only []
      split
      · simp [calc_grabOp]
      · rfl

theorem end_modal_modalCount (scene : Scene) (s : GrapheneWM) :
    (graphene_wm_end_modal scene s).modalCount
      = (if 0 < s.modalCount - 1 then s.modalCount - 1 else 0) := by
  unfold graphene_wm_end_modal
  simp only []
  split
  · rfl
  · simp [calc_modalCount]

theorem end_modal_grab (scene : Scene) (s : GrapheneWM) :
    (graphene_wm_end_modal scene s).grab
      = (if 0 < s.modalCount - 1 then s.grab else false) := by
  unfold graphene_wm_end_modal
  simp only []
  split
  · rfl
  · simp [calc_grab]

theorem add_modalCount (scene : Scene) (s : GrapheneWM) (a : Nat) :
    (xfixes_add_input_actor scene s a).modalCount = s.modalCount
      ∧ (xfixes_add_input_actor scene s a).grab = s.grab := by
  unfold xfixes_add_input_actor
  split
  · exact ⟨rfl, rfl⟩
  · split
    · exact ⟨rfl, rfl⟩
    · simp [calc_modalCount, calc_grab]

theorem remove_modalCount (scene : Scene) (s : GrapheneWM) (a : Nat) :
    (xfixes_remove_input_actor scene s a).modalCount = s.modalCount
      ∧ (xfixes_remove_input_actor scene s a).grab = s.grab := by
  unfold xfixes_remove_input_actor
  split
  · exact ⟨rfl, rfl⟩
  · split
    · exact ⟨rfl, rfl⟩
    · simp only []
      split
      · simp [calc_modalCount, calc_grab]
      · exact ⟨rfl, rfl⟩

theorem modalInv_step (scene : Scene) (s : GrapheneWM) (ev : WMEvent) (h : ModalInv s) :
    ModalInv (wmStep scene s ev) := by
  obtain ⟨hop, h0, hg⟩ := h
  cases ev with
  | begin_modal =>
    refine ⟨?_, ?_, ?_⟩
    · show (graphene_wm_begin_modal scene s).grabOp = false
      rw [begin_modal_grabOp]; exact hop
    · show 0 ≤ (graphene_wm_begin_modal scene s).modalCount
      rw [begin_modal_modalCount]; omega
    · show (graphene_wm_begin_modal scene s).grab = true ↔ 0 < (graphene_wm_begin_modal scene s).modalCount
      rw [begin_modal_modalCount, begin_modal_grab]
      split
      · rw [hg]; omega
      · simp [hop]; omega
  | end_modal =>
    refine ⟨?_, ?_, ?_⟩
    · show (graphene_wm_end_modal scene s).grabOp = false
      rw [end_modal_grabOp]; exact hop
    · show 0 ≤ (graphene_wm_end_modal scene s).modalCount
      rw [end_modal_modalCount]; split <;> omega
    · show (graphene_wm_end_modal scene s).grab = true ↔ 0 < (graphene_wm_end_modal scene s).modalCount
      rw [end_modal_modalCount, end_modal_grab]
      split
      · rw [hg]; omega
      · simp
  | add_input_actor a =>
    have h := add_modalCount scene s a
    show (xfixes_add_input_actor scene s a).grabOp = false ∧
      0 ≤ (xfixes_add_input_actor scene s a).modalCount ∧
      ((xfixes_add_input_actor scene s a).grab = true ↔ 0 < (xfixes_add_input_actor scene s a).modalCount)
    rw [h.1, h.2, add_grabOp]; exact ⟨hop, h0, hg⟩
  | remove_input_actor a =>
    have h := remove_modalCount scene s a
    show (xfixes_remove_input_actor scene s a).grabOp = false ∧
      0 ≤ (xfixes_remove_input_actor scene s a).modalCount ∧
      ((xfixes_remove_input_actor scene s a).grab = true ↔ 0 < (xfixes_remove_input_actor scene s a).modalCount)
    rw [h.1, h.2, remove_grabOp]; exact ⟨hop, h0, hg⟩
  | actor_changed =>
    show (xfixes_calculate_input_region scene s).grabOp = false ∧
      0 ≤ (xfixes_calculate_input_region scene s).modalCount ∧
      ((xfixes_calculate_input_region scene s).grab = true ↔ 0 < (xfixes_calculate_input_region scene s).modalCount)
    rw [calc_modalCount, calc_grab, calc_grabOp]; exact ⟨hop, h0, hg⟩

theorem modalInv_run (evs : List (Scene × WMEvent)) :
    ∀ s : GrapheneWM, ModalInv s → ModalInv (wmRun s evs) := by
  induction evs with
  | nil => intro s h; exact h
  | cons e rest ih =>
    intro s h
    obtain ⟨scene, ev⟩ := e
    exact ih _ (modalInv_step scene s ev h)

/-- The grab follows the depth where `meta_plugin_begin_modal` cannot fail:
from a state at depth 0 with no grab held and no other grab operation in
progress on the display, after any finite sequence of window-manager events
the exclusive grab is held if and only if `modalCount` is greater than 0. -/
theorem grab_iff_depth_pos_without_grab_op (s : GrapheneWM) (evs : List (Scene × WMEvent))
    (hdepth : s.modalCount = 0) (hgrab : s.grab = false) (hop : s.grabOp = false) :
    (wmRun s evs).grab = true ↔ 0 < (wmRun s evs).modalCount :=
  (modalInv_run evs s ⟨hop, by omega, by simp [hdepth, hgrab]⟩).2.2

/-- C1, evaluated on the code: `graphene_wm_begin_modal` is called at depth 0
with no grab held while the user drags a window.  `meta_plugin_begin_modal`
is called and returns `FALSE`, its result is not looked at, and the depth
becomes 1: the depth is positive and the exclusive grab is not held. -/
theorem begin_modal_while_dragging_takes_no_grab :
    wmDragging.modalCount = 0 ∧ wmDragging.grab = false
    ∧ (meta_plugin_begin_modal { wmDragging with modalCount := 1 }).2 = false
    ∧ newCalls wmDragging (wmRun wmDragging [(emptyScene, WMEvent.begin_modal)])
        = [Call.meta_plugin_begin_modal, Call.xfixes_calculate_input_region]
    ∧ (wmRun wmDragging [(emptyScene, WMEvent.begin_modal)]).modalCount = 1
    ∧ (wmRun wmDragging [(emptyScene, WMEvent.begin_modal)]).grab = false
    ∧ ¬ ((wmRun wmDragging [(emptyScene, WMEvent.begin_modal)]).grab = true
        ↔ 0 < (wmRun wmDragging [(emptyScene, WMEvent.begin_modal)]).modalCount) := by
  decide

/-- C2: from a state at depth 0, after any finite sequence of
`graphene_wm_begin_modal` and `graphene_wm_end_modal` calls, in any order and
with more ends than begins allowed (and interleaved with any other
window-manager events), `modalCount` is greater than or equal to 0. -/
theorem modal_depth_nonneg (s : GrapheneWM) (evs : List (Scene × WMEvent))
    (hdepth : s.modalCount = 0) : 0 ≤ (wmRun s evs).modalCount := by
  have key : ∀ (l : List (Scene × WMEvent)) (t : GrapheneWM),
      0 ≤ t.modalCount → 0 ≤ (wmRun t l).modalCount := by
    intro l
    induction l with
    | nil => intro t h; exact h
    | cons e rest ih =>
      intro t h
      obtain ⟨scene, ev⟩ := e
      apply ih
      cases ev with
      | begin_modal =>
        show 0 ≤ (graphene_wm_begin_modal scene t).modalCount
        rw [begin_modal_modalCount]; omega
      | end_modal =>
        show 0 ≤ (graphene_wm_end_modal scene t).modalCount
        rw [end_modal_modalCount]; split <;> omega
      | add_input_actor a =>
        show 0 ≤ (xfixes_add_input_actor scene t a).modalCount
        rw [(add_modalCount scene t a).1]; exact h
      | remove_input_actor a =>
        show 0 ≤ (xfixes_remove_input_actor scene t a).modalCount
        rw [(remove_modalCount scene t a).1]; exact h
      | actor_changed =>
        show 0 ≤ (xfixes_calculate_input_region scene t).modalCount
        rw [calc_modalCount]; exact h
  exact key evs s (by omega)

theorem modal_depth_nonneg_witness :
    wmInit.modalCount = 0 ∧
    0 ≤ (wmRun wmInit [(emptyScene, WMEvent.end_modal), (emptyScene, WMEvent.end_modal),
      (emptyScene, WMEvent.begin_modal), (emptyScene, WMEvent.end_modal),
      (emptyScene, WMEvent.end_modal)]).modalCount :=
  ⟨rfl, modal_depth_nonneg wmInit _ rfl⟩

theorem newCalls_of_append (before after : GrapheneWM) (l : List Call)
    (h : after.log = before.log ++ l) : newCalls before after = l := by
  unfold newCalls
  rw [h]
  simp

theorem begin_modal_log (scene : Scene) (s : GrapheneWM) :
    (graphene_wm_begin_modal scene s).log
      = s.log ++ (if 0 < s.modalCount then []
          else [Call.meta_plugin_begin_modal, Call.xfixes_calculate_input_region]) := by
  unfold graphene_wm_begin_modal
  split
  · simp
  · simp [calc_log, (meta_plugin_begin_modal_fields _).2.2.1]

theorem end_modal_log (scene : Scene) (s : GrapheneWM) :
    (graphene_wm_end_modal scene s).log
      = s.log ++ (if 0 < s.modalCount - 1 then []
          else [Call.meta_plugin_end_modal, Call.xfixes_calculate_input_region]) := by
  unfold graphene_wm_end_modal
  simp only []
  split
  · simp
  · simp [calc_log]

/-- C3: for every depth d >= 0, `graphene_wm_begin_modal` called at depth d
leaves the depth at d + 1; at d = 0 the calls it makes are exactly
`meta_plugin_begin_modal` followed by the input-region recomputation, and at
every d > 0 it makes no call at all, so each of the two is called if and only
if d = 0. -/
theorem begin_modal_depth_and_calls (scene : Scene) (s : GrapheneWM) (d : Int)
    (hd : s.modalCount = d) (hnonneg : 0 ≤ d) :
    (graphene_wm_begin_modal scene s).modalCount = d + 1
    ∧ (d = 0 → newCalls s (graphene_wm_begin_modal scene s)
          = [Call.meta_plugin_begin_modal, Call.xfixes_calculate_input_region])
    ∧ (0 < d → newCalls s (graphene_wm_begin_modal scene s) = [])
    ∧ (Call.meta_plugin_begin_modal ∈ newCalls s (graphene_wm_begin_modal scene s) ↔ d = 0)
    ∧ (Call.xfixes_calculate_input_region ∈ newCalls s (graphene_wm_begin_modal scene s)
          ↔ d = 0) := by
  have hlog := newCalls_of_append s _ _ (begin_modal_log scene s)
  rw [hlog, begin_modal_modalCount, hd]
  refine ⟨rfl, ?_, ?_, ?_, ?_⟩
  · intro h0
    simp [h0]
  · intro hpos
    simp [hpos]
  · by_cases hpos : 0 < d
    · simp [hpos]; omega
    · simp [hpos]; omega
  · by_cases hpos : 0 < d
    · simp [hpos]; omega
    · simp [hpos]; omega

theorem begin_modal_depth_and_calls_witness :
    wmInit.modalCount = 0 ∧ (0 : Int) ≤ 0 ∧
    (graphene_wm_begin_modal emptyScene wmInit).modalCount = 0 + 1
    ∧ ((0 : Int) = 0 → newCalls wmInit (graphene_wm_begin_modal emptyScene wmInit)
          = [Call.meta_plugin_begin_modal, Call.xfixes_calculate_input_region])
    ∧ ((0 : Int) < 0 → newCalls wmInit (graphene_wm_begin_modal emptyScene wmInit) = [])
    ∧ (Call.meta_plugin_begin_modal ∈ newCalls wmInit (graphene_wm_begin_modal emptyScene wmInit)
          ↔ (0 : Int) = 0)
    ∧ (Call.xfixes_calculate_input_region ∈
          newCalls wmInit (graphene_wm_begin_modal emptyScene wmInit) ↔ (0 : Int) = 0) :=
  ⟨rfl, le_refl 0, begin_modal_depth_and_calls emptyScene wmInit 0 rfl (le_refl 0)⟩

/-- C4, as stated, fails at depth 0: `graphene_wm_end_modal` called on the
fresh state, whose depth is 0, leaves the depth at 0 and calls both
`meta_plugin_end_modal` and the input-region recomputation. -/
theorem end_modal_at_depth_zero_calls_release :
    wmInit.modalCount = 0
    ∧ (graphene_wm_end_modal emptyScene wmInit).modalCount = 0
    ∧ newCalls wmInit (graphene_wm_end_modal emptyScene wmInit)
        = [Call.meta_plugin_end_modal, Call.xfixes_calculate_input_region]
    ∧ ¬ (newCalls wmInit (graphene_wm_end_modal emptyScene wmInit) = []) := by
  decide

/-- C4, amended: for every depth d >= 0, `graphene_wm_end_modal` called at
depth d leaves the depth at max(d - 1, 0); it calls `meta_plugin_end_modal`
and then the input-region recomputation if and only if the depth after the
call is 0, that is at d = 1 and also at d = 0; at every d >= 2 it makes no
call. -/
theorem end_modal_depth_and_calls (scene : Scene) (s : GrapheneWM) (d : Int)
    (hd : s.modalCount = d) (hnonneg : 0 ≤ d) :
    (graphene_wm_end_modal scene s).modalCount = max (d - 1) 0
    ∧ (d ≤ 1 → newCalls s (graphene_wm_end_modal scene s)
          = [Call.meta_plugin_end_modal, Call.xfixes_calculate_input_region])
    ∧ (2 ≤ d → newCalls s (graphene_wm_end_modal scene s) = [])
    ∧ (Call.meta_plugin_end_modal ∈ newCalls s (graphene_wm_end_modal scene s)
          ↔ (graphene_wm_end_modal scene s).modalCount = 0)
    ∧ (Call.xfixes_calculate_input_region ∈ newCalls s (graphene_wm_end_modal scene s)
          ↔ (graphene_wm_end_modal scene s).modalCount = 0) := by
  have hlog := newCalls_of_append s _ _ (end_modal_log scene s)
  rw [hlog, end_modal_modalCount, hd]
  by_cases hpos : 0 < d - 1
  · simp only [hpos, if_true]
    refine ⟨?_, ?_, ?_, ?_, ?_⟩
    · rw [max_eq_left (by omega)]
    · intro h; omega
    · intro _; trivial
    · simp; omega
    · simp; omega
  · simp only [hpos, if_false]
    refine ⟨?_, ?_, ?_, ?_, ?_⟩
    · rw [max_eq_right (by omega)]
    · intro _; trivial
    · intro h; omega
    · simp
    · simp

theorem end_modal_depth_and_calls_witness :
    (graphene_wm_begin_modal emptyScene wmInit).modalCount = 1 ∧ (0 : Int) ≤ 1 ∧
    (graphene_wm_end_modal emptyScene (graphene_wm_begin_modal emptyScene wmInit)).modalCount
      = max (1 - 1) 0 :=
  ⟨by decide, by decide,
    (end_modal_depth_and_calls emptyScene (graphene_wm_begin_modal emptyScene wmInit) 1
      (by decide) (by decide)).1⟩

/-! ## Theorems: the X input region -/

theorem calc_region_of_modal (scene : Scene) (s : GrapheneWM) (hw : s.wayland = false)
    (hpos : 0 < s.modalCount) :
    (xfixes_calculate_input_region scene s).stageInputRegion = some []
      ∧ (xfixes_calculate_input_region scene s).xInputRegion = 0 := by
  unfold xfixes_calculate_input_region
  simp [hw, hpos]

theorem regionInv_calc (scene : Scene) (s : GrapheneWM) (hw : s.wayland = false) :
    RegionInv (xfixes_calculate_input_region scene s) := by
  refine ⟨by rw [calc_wayland]; exact hw, ?_⟩
  intro hpos
  rw [calc_modalCount] at hpos
  exact calc_region_of_modal scene s hw hpos

theorem regionInv_step (scene : Scene) (s : GrapheneWM) (ev : WMEvent) (h : RegionInv s) :
    RegionInv (wmStep scene s ev) := by
  obtain ⟨hw, hreg⟩ := h
  cases ev with
  | begin_modal =>
    show RegionInv (graphene_wm_begin_modal scene s)
    unfold graphene_wm_begin_modal
    split
    · rename_i hpos
      exact ⟨hw, fun _ => hreg hpos⟩
    · exact regionInv_calc scene _ (by rw [(meta_plugin_begin_modal_fields _).2.1]; exact hw)
  | end_modal =>
    show RegionInv (graphene_wm_end_modal scene s)
    unfold graphene_wm_end_modal
    simp only []
    split
    · rename_i hpos
      exact ⟨hw, fun _ => hreg (by omega)⟩
    · exact regionInv_calc scene _ hw
  | add_input_actor a =>
    show RegionInv (xfixes_add_input_actor scene s a)
    unfold xfixes_add_input_actor
    split
    · exact ⟨hw, hreg⟩
    · split
      · exact ⟨hw, hreg⟩
      · exact regionInv_calc scene _ hw
  | remove_input_actor a =>
    show RegionInv (xfixes_remove_input_actor scene s a)
    unfold xfixes_remove_input_actor
    split
    · exact ⟨hw, hreg⟩
    · split
      · exact ⟨hw, hreg⟩
      · simp only []
        split
        · exact regionInv_calc scene _ hw
        · exact ⟨hw, hreg⟩
  | actor_changed =>
    exact regionInv_calc scene s hw

theorem regionInv_run (evs : List (Scene × WMEvent)) :
    ∀ s : GrapheneWM, RegionInv s → RegionInv (wmRun s evs) := by
  induction evs with
  | nil => intro s h; exact h
  | cons e rest ih =>
    intro s h
    obtain ⟨scene, ev⟩ := e
    exact ih _ (regionInv_step scene s ev h)

/-- C5: under the X11 backend, in every state reached from a state at depth 0
(whatever is published there, in particular nothing) by `begin_modal`,
`end_modal`, `xfixes_add_input_actor`, `xfixes_remove_input_actor` and actor
change notifications, a modal depth greater than 0 implies that the published
input region is the empty region and that `xInputRegion` is 0. -/
theorem modal_depth_pos_region_empty (s : GrapheneWM) (evs : List (Scene × WMEvent))
    (hw : s.wayland = false) (hdepth : s.modalCount = 0)
    (hpos : 0 < (wmRun s evs).modalCount) :
    (wmRun s evs).stageInputRegion = some [] ∧ (wmRun s evs).xInputRegion = 0 :=
  (regionInv_run evs s ⟨hw, fun h => absurd h (by omega)⟩).2 hpos

theorem modal_depth_pos_region_empty_witness :
    wmInit.wayland = false ∧ wmInit.modalCount = 0
    ∧ 0 < (wmRun wmInit [(panelScene, WMEvent.add_input_actor 1),
        (panelScene, WMEvent.begin_modal), (hiddenPanelScene, WMEvent.actor_changed)]).modalCount
    ∧ (wmRun wmInit [(panelScene, WMEvent.add_input_actor 1),
        (panelScene, WMEvent.begin_modal),
        (hiddenPanelScene, WMEvent.actor_changed)]).stageInputRegion = some []
    ∧ (wmRun wmInit [(panelScene, WMEvent.add_input_actor 1),
        (panelScene, WMEvent.begin_modal),
        (hiddenPanelScene, WMEvent.actor_changed)]).xInputRegion = 0 :=
  ⟨rfl, rfl, by decide, modal_depth_pos_region_empty wmInit _ rfl rfl (by decide)⟩

theorem collectRects_all (scene : Scene) (l : List Nat)
    (hall : ∀ a ∈ l, (scene a).isActor = true ∧ (scene a).mapped = true
      ∧ (scene a).reactive = true) :
    collectRects scene l = some (l.map (fun a => inputRect (scene a))) := by
  induction l with
  | nil => rfl
  | cons a rest ih =>
    have ha := hall a (List.mem_cons_self a rest)
    have hrest := ih (fun b hb => hall b (List.mem_cons_of_mem a hb))
    simp [collectRects, ha.1, ha.2.1, ha.2.2, hrest]

theorem collectRects_none (scene : Scene) (l : List Nat) (a : Nat) (hmem : a ∈ l)
    (hactor : (scene a).isActor = true)
    (hoff : (scene a).mapped = false ∨ (scene a).reactive = false) :
    collectRects scene l = none := by
  induction l with
  | nil => cases hmem
  | cons b rest ih =>
    unfold collectRects
    by_cases hb : b = a
    · subst hb
      rcases hoff with h | h <;> simp [hactor, h]
    · have hrest : a ∈ rest := by
        rcases List.mem_cons.mp hmem with h | h
        · exact absurd h.symm hb
        · exact h
      have := ih hrest
      split
      · exact this
      · split
        · rfl
        · simp [this]

theorem wrapShort_of_range (z : Int) (hlo : -32768 ≤ z) (hhi : z ≤ 32767) :
    wrapShort z = z := by
  unfold wrapShort
  omega

/-- C6, as stated, fails: with the one mapped and reactive actor of
`panelScene` registered at depth 0, whose transformed position is (5, 7), the
rectangle published has y = 8, not 7. -/
theorem calc_rect_y_is_offset :
    wmPanel.wayland = false ∧ wmPanel.modalCount = 0 ∧ wmPanel.xInputActors = [1]
    ∧ (panelScene 1).mapped = true ∧ (panelScene 1).reactive = true
    ∧ truncf (panelScene 1).y = 7
    ∧ (xfixes_calculate_input_region panelScene wmPanel).stageInputRegion
        = some [{ x := 5, y := 8, width := 100, height := 30 }] := by
  decide

/-- C6, amended: under the X11 backend, when the modal depth is 0, the
registration list is non-empty and every registered actor is mapped and
reactive, `xfixes_calculate_input_region` publishes a region made of exactly
one rectangle per registered actor, in the order of the list; for an actor
whose geometry fits the fields of an `XRectangle`, the rectangle has the
actor's transformed x, width and height truncated to integers, and its y is
the actor's truncated transformed y plus 1. -/
theorem calc_publishes_rect_per_actor (scene : Scene) (s : GrapheneWM)
    (hw : s.wayland = false) (hdepth : s.modalCount = 0) (hne : s.xInputActors ≠ [])
    (hall : ∀ a ∈ s.xInputActors, (scene a).isActor = true ∧ (scene a).mapped = true
      ∧ (scene a).reactive = true) :
    (xfixes_calculate_input_region scene s).stageInputRegion
        = some (s.xInputActors.map (fun a => inputRect (scene a)))
    ∧ (s.xInputActors.map (fun a => inputRect (scene a))).length = s.xInputActors.length
    ∧ (xfixes_calculate_input_region scene s).xInputRegion ≠ 0
    ∧ ∀ a ∈ s.xInputActors,
        (-32768 ≤ truncf (scene a).x ∧ truncf (scene a).x ≤ 32767) →
        (-32768 ≤ truncf (scene a).y ∧ truncf (scene a).y ≤ 32766) →
        (0 ≤ truncf (scene a).width ∧ truncf (scene a).width ≤ 65535) →
        (0 ≤ truncf (scene a).height ∧ truncf (scene a).height ≤ 65535) →
        inputRect (scene a) =
          { x := truncf (scene a).x, y := truncf (scene a).y + 1,
            width := truncf (scene a).width, height := truncf (scene a).height } := by
  refine ⟨?_, by simp, ?_, ?_⟩
  · unfold xfixes_calculate_input_region
    simp [hw, hdepth, hne, collectRects_all scene s.xInputActors hall]
  · unfold xfixes_calculate_input_region
    simp [hw, hdepth, hne, collectRects_all scene s.xInputActors hall]
  · intro a _ hx hy hwd hht
    unfold inputRect castShort castUShort
    rw [wrapShort_of_range _ hx.1 hx.2, wrapShort_of_range _ hy.1 (by omega),
      wrapShort_of_range _ (by omega) (by omega)]
    congr 1 <;> omega

theorem calc_publishes_rect_per_actor_witness :
    (xfixes_calculate_input_region panelScene wmPanel).stageInputRegion
        = some (wmPanel.xInputActors.map (fun a => inputRect (panelScene a))) :=
  (calc_publishes_rect_per_actor panelScene wmPanel (by decide) (by decide) (by decide)
    (by decide)).1

/-- C7: when the modal depth is 0 and at least one registered actor is
unmapped or non-reactive, `xfixes_calculate_input_region` leaves the published
region and the stored `xInputRegion` handle as they were, whatever the state
of the other registered actors (under X11 the loop returns early; under
Wayland the function returns at once). -/
theorem calc_keeps_region_when_actor_off (scene : Scene) (s : GrapheneWM) (a : Nat)
    (hdepth : s.modalCount = 0) (hmem : a ∈ s.xInputActors)
    (hactor : (scene a).isActor = true)
    (hoff : (scene a).mapped = false ∨ (scene a).reactive = false) :
    (xfixes_calculate_input_region scene s).stageInputRegion = s.stageInputRegion
    ∧ (xfixes_calculate_input_region scene s).xInputRegion = s.xInputRegion
    ∧ (xfixes_calculate_input_region scene s).xInputActors = s.xInputActors := by
  have hne : s.xInputActors ≠ [] := List.ne_nil_of_mem hmem
  have hnone := collectRects_none scene s.xInputActors a hmem hactor hoff
  unfold xfixes_calculate_input_region
  cases hw : s.wayland <;> simp [hdepth, hne, hnone]

theorem calc_keeps_region_when_actor_off_witness :
    wmPanel.modalCount = 0 ∧ 1 ∈ wmPanel.xInputActors
    ∧ (hiddenPanelScene 1).isActor = true ∧ (hiddenPanelScene 1).mapped = false
    ∧ wmPanel.stageInputRegion = some [{ x := 5, y := 8, width := 100, height := 30 }]
    ∧ (xfixes_calculate_input_region hiddenPanelScene wmPanel).stageInputRegion
        = wmPanel.stageInputRegion
    ∧ (xfixes_calculate_input_region hiddenPanelScene wmPanel).xInputRegion
        = wmPanel.xInputRegion :=
  ⟨by decide, by decide, by decide, by decide, by decide,
    (calc_keeps_region_when_actor_off hiddenPanelScene wmPanel 1 (by decide) (by decide)
      (by decide) (Or.inl (by decide))).1,
    (calc_keeps_region_when_actor_off hiddenPanelScene wmPanel 1 (by decide) (by decide)
      (by decide) (Or.inl (by decide))).2.1⟩

theorem removeLoop_eq (actor : Nat) (l : List Nat) (changed : Bool) :
    removeLoop actor l changed
      = (l.filter (fun it => decide (it ≠ actor)), changed || decide (actor ∈ l)) := by
  induction l generalizing changed with
  | nil => simp [removeLoop]
  | cons it rest ih =>
    unfold removeLoop
    by_cases h : it = actor
    · subst h
      simp [ih]
    · have h' : ¬ actor = it := fun e => h e.symm
      simp [h, h', ih]

/-- C8: for an actor `a`, `xfixes_remove_input_actor (a)` leaves the
registration list equal to the old list with every occurrence of `a` removed
and the other actors in their order; it runs the region recomputation (once)
if and only if `a` was in the list and logs no error; when `a` was not
registered, the whole state, with the list and the published region, is
unchanged.  The state is one the code reaches: under Wayland nothing is ever
registered. -/
theorem remove_input_actor_filters (scene : Scene) (s : GrapheneWM) (a : Nat)
    (hreach : s.wayland = true → s.xInputActors = [])
    (hactor : (scene a).isActor = true) :
    (xfixes_remove_input_actor scene s a).xInputActors
        = s.xInputActors.filter (fun it => decide (it ≠ a))
    ∧ (Call.xfixes_calculate_input_region ∈ newCalls s (xfixes_remove_input_actor scene s a)
        ↔ a ∈ s.xInputActors)
    ∧ newCalls s (xfixes_remove_input_actor scene s a)
        = (if a ∈ s.xInputActors then [Call.xfixes_calculate_input_region] else [])
    ∧ Call.g_critical ∉ newCalls s (xfixes_remove_input_actor scene s a)
    ∧ (a ∉ s.xInputActors → xfixes_remove_input_actor scene s a = s) := by
  have hfilter : a ∉ s.xInputActors →
      s.xInputActors.filter (fun it => decide (it ≠ a)) = s.xInputActors := by
    intro hnot
    rw [List.filter_eq_self]
    intro b hb
    simp only [decide_eq_true_eq]
    intro e
    exact hnot (e ▸ hb)
  cases hw : s.wayland
  · -- X11
    by_cases hmem : a ∈ s.xInputActors
    · have hlog : (xfixes_remove_input_actor scene s a).log
          = s.log ++ [Call.xfixes_calculate_input_region] := by
        unfold xfixes_remove_input_actor
        simp [hw, hactor, removeLoop_eq, hmem, calc_log]
      have hlist : (xfixes_remove_input_actor scene s a).xInputActors
          = s.xInputActors.filter (fun it => decide (it ≠ a)) := by
        unfold xfixes_remove_input_actor
        simp [hw, hactor, removeLoop_eq, hmem, calc_xInputActors]
      rw [newCalls_of_append s _ _ hlog]
      refine ⟨hlist, by simp [hmem], by simp [hmem], by simp, fun h => absurd hmem h⟩
    · have hsame : xfixes_remove_input_actor scene s a = s := by
        have hf : List.filter (fun it => !decide (it = a)) s.xInputActors = s.xInputActors := by
          simpa using hfilter hmem
        unfold xfixes_remove_input_actor
        simp only [hw, hactor, removeLoop_eq]
        simp [hmem, hf]
        cases s
        simp_all
      rw [hsame]
      refine ⟨(hfilter hmem).symm, ?_, ?_, ?_, fun _ => rfl⟩ <;> simp [newCalls, hmem]
  · -- Wayland
    have hnil := hreach hw
    have hsame : xfixes_remove_input_actor scene s a = s := by
      unfold xfixes_remove_input_actor
      simp [hw]
    rw [hsame]
    refine ⟨by simp [hnil], ?_, ?_, ?_, fun _ => rfl⟩ <;> simp [newCalls, hnil]

theorem remove_input_actor_filters_witness :
    (wmPanel.wayland = true → wmPanel.xInputActors = []) ∧ (panelScene 1).isActor = true
    ∧ wmPanel.xInputActors = [1]
    ∧ (xfixes_remove_input_actor panelScene wmPanel 1).xInputActors
        = wmPanel.xInputActors.filter (fun it => decide (it ≠ 1))
    ∧ (xfixes_remove_input_actor panelScene wmPanel 1).xInputActors = [] :=
  ⟨by decide, by decide, by decide,
    (remove_input_actor_filters panelScene wmPanel 1 (by decide) (by decide)).1, by decide⟩

/-! ## Theorems: notification ids -/

theorem remove_server_fail_nextId (s : GrapheneNotificationBox) :
    (remove_server_fail_notification s).nextNotificationId = s.nextNotificationId := by
  unfold remove_server_fail_notification
  split
  · rfl
  · simp only []
    split <;> rfl

theorem boxCall_nextId (s : GrapheneNotificationBox) (call : BoxCall) :
    (boxCall s call).1.nextNotificationId = (s.nextNotificationId + 1) % UINT32_SIZE := by
  cases call with
  | notify app_name replaces_id app_icon summary body actions hints expire_timeout =>
    simp [boxCall, on_dbus_call_notify, add_notification, remove_server_fail_nextId]
  | post_server_fail =>
    simp [boxCall, post_server_fail_notification, add_notification, remove_server_fail_nextId]

theorem set_timeout_id (n : GrapheneNotification) (t : Int) :
    (graphene_notification_set_timeout n t).id = n.id := by
  unfold graphene_notification_set_timeout graphene_notification_stop_timeout
  simp only []
  split <;> split <;> rfl

theorem boxCall_id (s : GrapheneNotificationBox) (call : BoxCall) :
    (boxCall s call).2 = (s.nextNotificationId + 1) % UINT32_SIZE := by
  cases call with
  | notify app_name replaces_id app_icon summary body actions hints expire_timeout =>
    simp [boxCall, on_dbus_call_notify, set_timeout_id, remove_server_fail_nextId]
  | post_server_fail =>
    simp [boxCall, post_server_fail_notification, add_notification, remove_server_fail_nextId]

theorem assignedIds_length (calls : List BoxCall) :
    ∀ s : GrapheneNotificationBox, (assignedIds s calls).length = calls.length := by
  induction calls with
  | nil => intro s; rfl
  | cons c rest ih => intro s; simp [assignedIds, ih]

/-- The id given by the call at position `i` of a sequence. -/
theorem assignedIds_getElem (calls : List BoxCall) :
    ∀ (s : GrapheneNotificationBox) (i : Nat) (h : i < (assignedIds s calls).length),
      (assignedIds s calls)[i] = (s.nextNotificationId + 1 + i) % UINT32_SIZE := by
  induction calls with
  | nil => intro s i h; simp [assignedIds] at h
  | cons c rest ih =>
    intro s i h
    cases i with
    | zero => simp [assignedIds, boxCall_id]
    | succ j =>
      have hj : j < (assignedIds (boxCall s c).1 rest).length := by
        simpa [assignedIds] using h
      have := ih (boxCall s c).1 j hj
      simp only [assignedIds, List.getElem_cons_succ]
      rw [this, boxCall_nextId]
      unfold UINT32_SIZE
      omega

theorem assignedIds_increasing (calls : List BoxCall) :
    ∀ s : GrapheneNotificationBox, s.nextNotificationId + calls.length < UINT32_SIZE →
      (∀ id ∈ assignedIds s calls, s.nextNotificationId < id)
        ∧ (assignedIds s calls).Pairwise (fun a b => a < b) := by
  induction calls with
  | nil => intro s _; simp [assignedIds]
  | cons c rest ih =>
    intro s hlen
    simp only [List.length_cons] at hlen
    have hid : (boxCall s c).2 = s.nextNotificationId + 1 := by
      rw [boxCall_id]; exact Nat.mod_eq_of_lt (by omega)
    have hnext : (boxCall s c).1.nextNotificationId = s.nextNotificationId + 1 := by
      rw [boxCall_nextId]; exact Nat.mod_eq_of_lt (by omega)
    obtain ⟨hgt, hpw⟩ := ih (boxCall s c).1 (by rw [hnext]; omega)
    rw [hnext] at hgt
    constructor
    · intro id hmem
      simp only [assignedIds, List.mem_cons] at hmem
      rcases hmem with h | h
      · omega
      · have := hgt id h; omega
    · simp only [assignedIds, List.pairwise_cons]
      refine ⟨?_, hpw⟩
      intro id hmem
      have := hgt id hmem
      omega

/-- C9, as stated, fails: on a box whose bus name was requested with success,
4294967295 failure-notification posts in a row assign the ids 2, 3, ...,
4294967295 and then 0, because `nextNotificationId` is a `guint32`; the last
id is smaller than the first. -/
theorem ids_wrap_to_zero :
    (idsSinceInit 1 (List.replicate 4294967295 BoxCall.post_server_fail))[0]? = some 2
    ∧ (idsSinceInit 1 (List.replicate 4294967295 BoxCall.post_server_fail))[4294967294]?
        = some 0
    ∧ ¬ (idsSinceInit 1 (List.replicate 4294967295 BoxCall.post_server_fail)).Pairwise
        (fun a b => a < b) := by
  have hinit : graphene_notification_box_init 1
      = { dbusNameId := 1, nextNotificationId := 1, failNotificationId := 0, children := [] } := by
    decide
  have hids : idsSinceInit 1 (List.replicate 4294967295 BoxCall.post_server_fail)
      = assignedIds (graphene_notification_box_init 1)
          (List.replicate 4294967295 BoxCall.post_server_fail) := by
    unfold idsSinceInit
    rw [hinit]
    rfl
  have hlen : (assignedIds (graphene_notification_box_init 1)
      (List.replicate 4294967295 BoxCall.post_server_fail)).length = 4294967295 := by
    rw [assignedIds_length, List.length_replicate]
  have h0 : (assignedIds (graphene_notification_box_init 1)
      (List.replicate 4294967295 BoxCall.post_server_fail))[0]? = some 2 := by
    rw [List.getElem?_eq_getElem (by rw [hlen]; omega), assignedIds_getElem, hinit]
    rfl
  have hlast : (assignedIds (graphene_notification_box_init 1)
      (List.replicate 4294967295 BoxCall.post_server_fail))[4294967294]? = some 0 := by
    rw [List.getElem?_eq_getElem (by rw [hlen]; omega), assignedIds_getElem, hinit]
    rfl
  rw [hids]
  refine ⟨h0, hlast, ?_⟩
  intro hpw
  rw [List.pairwise_iff_getElem] at hpw
  have hlt := hpw 0 4294967294 (by rw [hlen]; omega) (by rw [hlen]; omega) (by omega)
  rw [assignedIds_getElem, assignedIds_getElem, hinit] at hlt
  revert hlt
  unfold UINT32_SIZE
  decide

/-- C9, amended: as long as the box has assigned at most 4294967294 ids since
its construction (so `nextNotificationId` has not wrapped around 2^32), each
id assigned by a Notify call or a failure-notification post is strictly
greater than every id assigned before it, so no id is reused. -/
theorem ids_strictly_increasing (dbusNameId : Nat) (calls : List BoxCall)
    (hcount : (idsSinceInit dbusNameId calls).length ≤ 4294967294) :
    (idsSinceInit dbusNameId calls).Pairwise (fun a b => a < b) := by
  unfold idsSinceInit at hcount ⊢
  rw [List.length_append, assignedIds_length, List.length_map] at hcount
  by_cases hd : dbusNameId = 0
  · subst hd
    have hnext : (graphene_notification_box_init 0).nextNotificationId = 2 := by decide
    have hchildren : (graphene_notification_box_init 0).children.map (fun n => n.id) = [2] := by
      decide
    have hclen : (graphene_notification_box_init 0).children.length = 1 := by decide
    rw [hclen] at hcount
    obtain ⟨hgt, hpw⟩ := assignedIds_increasing calls (graphene_notification_box_init 0)
      (by rw [hnext]; unfold UINT32_SIZE; omega)
    rw [hnext] at hgt
    rw [hchildren]
    simp only [List.singleton_append, List.pairwise_cons]
    exact ⟨hgt, hpw⟩
  · have hinit : graphene_notification_box_init dbusNameId
        = { dbusNameId := dbusNameId, nextNotificationId := 1, failNotificationId := 0,
            children := [] } := by
      unfold graphene_notification_box_init
      simp [hd]
    rw [hinit] at hcount ⊢
    simp only [List.length_nil] at hcount
    obtain ⟨_, hpw⟩ := assignedIds_increasing calls
      { dbusNameId := dbusNameId, nextNotificationId := 1, failNotificationId := 0,
        children := [] }
      (by unfold UINT32_SIZE; simp only []; omega)
    simpa using hpw

theorem ids_strictly_increasing_witness :
    (idsSinceInit 0 [BoxCall.notify "Mail" 0 "mail-symbolic" "New message"
        "You have 1 new email" [] [] (-1), BoxCall.post_server_fail]).length ≤ 4294967294
    ∧ idsSinceInit 0 [BoxCall.notify "Mail" 0 "mail-symbolic" "New message"
        "You have 1 new email" [] [] (-1), BoxCall.post_server_fail] = [2, 3, 4]
    ∧ (idsSinceInit 0 [BoxCall.notify "Mail" 0 "mail-symbolic" "New message"
        "You have 1 new email" [] [] (-1), BoxCall.post_server_fail]).Pairwise
        (fun a b => a < b) :=
  ⟨by decide, by decide, ids_strictly_increasing 0 _ (by decide)⟩

/-! ## Theorems: the stacking order of notifications -/

section Sorting
variable {α : Type}

theorem g_list_sort_merge_nil_right (cmp : α → α → Int) (l1 : List α) :
    g_list_sort_merge cmp l1 [] = l1 := by
  cases l1 <;> rfl

theorem g_list_sort_merge_cons_cons (cmp : α → α → Int) (a b : α) (l1 l2 : List α) :
    g_list_sort_merge cmp (a :: l1) (b :: l2)
      = if cmp a b ≤ 0 then a :: g_list_sort_merge cmp l1 (b :: l2)
        else b :: g_list_sort_merge cmp (a :: l1) l2 := by
  rw [g_list_sort_merge, mergeHead]
  rfl

theorem g_list_sort_merge_perm (cmp : α → α → Int) (l1 : List α) :
    ∀ l2 : List α, (g_list_sort_merge cmp l1 l2).Perm (l1 ++ l2) := by
  induction l1 with
  | nil => intro l2; exact List.Perm.refl _
  | cons a l1 ih1 =>
    intro l2
    induction l2 with
    | nil => rw [g_list_sort_merge_nil_right, List.append_nil]
    | cons b l2 ih2 =>
      rw [g_list_sort_merge_cons_cons]
      split
      · exact (ih1 (b :: l2)).cons a
      · exact (ih2.cons b).trans (List.perm_middle.symm)

theorem g_list_sort_merge_sorted (cmp : α → α → Int) (R : α → α → Prop)
    (htrans : ∀ a b c, R a b → R b c → R a c)
    (hle : ∀ a b, cmp a b ≤ 0 → R a b) (hgt : ∀ a b, ¬ cmp a b ≤ 0 → R b a)
    (l1 : List α) :
    ∀ l2 : List α, l1.Pairwise R → l2.Pairwise R → (g_list_sort_merge cmp l1 l2).Pairwise R := by
  induction l1 with
  | nil => intro l2 _ h2; exact h2
  | cons a l1 ih1 =>
    intro l2
    induction l2 with
    | nil => intro h1 _; rw [g_list_sort_merge_nil_right]; exact h1
    | cons b l2 ih2 =>
      intro h1 h2
      rw [g_list_sort_merge_cons_cons]
      obtain ⟨ha, h1'⟩ := List.pairwise_cons.mp h1
      obtain ⟨hb, h2'⟩ := List.pairwise_cons.mp h2
      split
      · rename_i hab
        refine List.pairwise_cons.mpr ⟨?_, ih1 (b :: l2) h1' h2⟩
        intro x hx
        have hx' := (g_list_sort_merge_perm cmp l1 (b :: l2)).mem_iff.mp hx
        rcases List.mem_append.mp hx' with h | h
        · exact ha x h
        · rcases List.mem_cons.mp h with h | h
          · rw [h]; exact hle a b hab
          · exact htrans a b x (hle a b hab) (hb x h)
      · rename_i hab
        refine List.pairwise_cons.mpr ⟨?_, ih2 h1 h2'⟩
        intro x hx
        have hx' := (g_list_sort_merge_perm cmp (a :: l1) l2).mem_iff.mp hx
        rcases List.mem_append.mp hx' with h | h
        · rcases List.mem_cons.mp h with h | h
          · rw [h]; exact hgt a b hab
          · exact htrans b a x (hgt a b hab) (ha x h)
        · exact hb x h

theorem g_list_sort_real_spec (cmp : α → α → Int) (R : α → α → Prop)
    (htrans : ∀ a b c, R a b → R b c → R a c)
    (hle : ∀ a b, cmp a b ≤ 0 → R a b) (hgt : ∀ a b, ¬ cmp a b ≤ 0 → R b a)
    (fuel : Nat) :
    ∀ list : List α, list.length ≤ fuel →
      (g_list_sort_real cmp fuel list).Perm list
        ∧ (g_list_sort_real cmp fuel list).Pairwise R := by
  induction fuel with
  | zero =>
    intro list hlen
    have : list = [] := List.length_eq_zero.mp (by omega)
    subst this
    exact ⟨List.Perm.refl _, List.Pairwise.nil⟩
  | succ fuel ih =>
    intro list hlen
    unfold g_list_sort_real
    split
    · rename_i hshort
      refine ⟨List.Perm.refl _, ?_⟩
      match list, hshort with
      | [], _ => exact List.Pairwise.nil
      | [a], _ => exact List.pairwise_singleton R a
      | _ :: _ :: _, h => exact absurd h (by simp)
    · rename_i hlong
      have htake : (list.take (list.length / 2)).length ≤ fuel := by
        rw [List.length_take]; omega
      have hdrop : (list.drop (list.length / 2)).length ≤ fuel := by
        rw [List.length_drop]; omega
      obtain ⟨p1, s1⟩ := ih _ htake
      obtain ⟨p2, s2⟩ := ih _ hdrop
      refine ⟨?_, g_list_sort_merge_sorted cmp R htrans hle hgt _ _ s1 s2⟩
      refine (g_list_sort_merge_perm cmp _ _).trans ?_
      refine (List.Perm.append p1 p2).trans ?_
      rw [List.take_append_drop]

end Sorting

theorem allocateLoop_order (children : List GrapheneNotification) :
    ∀ i : Nat, (allocateLoop i children).map Prod.fst = children := by
  induction children with
  | nil => intro i; rfl
  | cons n rest ih => intro i; simp [allocateLoop, ih]

/-- C10: for every box whose displayed notifications have pairwise distinct
ids, the order in which `graphene_notification_box_allocate` stacks them
(`g_list_sort` with `notification_compare_func`) is a permutation of the
children, and in it every notification has a strictly greater id than each
one stacked after it: newest first. -/
theorem allocate_stacks_by_id_descending (self : GrapheneNotificationBox)
    (hdistinct : (self.children.map (fun n => n.id)).Nodup) :
    ((graphene_notification_box_allocate self).map Prod.fst).Perm self.children
    ∧ ((graphene_notification_box_allocate self).map Prod.fst).Pairwise
        (fun a b => b.id < a.id) := by
  unfold graphene_notification_box_allocate
  simp only [allocateLoop_order]
  obtain ⟨hperm, hsorted⟩ := g_list_sort_real_spec notification_compare_func
    (fun a b => b.id ≤ a.id) (fun a b c hab hbc => Nat.le_trans hbc hab)
    (fun a b h => by
      unfold notification_compare_func at h
      split at h
      · omega
      · omega)
    (fun a b h => by
      unfold notification_compare_func at h
      split at h
      · omega
      · omega)
    self.children.length self.children (Nat.le_refl _)
  refine ⟨hperm, ?_⟩
  have hnodup : ((g_list_sort self.children notification_compare_func).map
      (fun n => n.id)).Nodup :=
    (List.Perm.nodup_iff (hperm.map _)).mpr hdistinct
  have hne : (g_list_sort self.children notification_compare_func).Pairwise
      (fun a b => a.id ≠ b.id) := by
    have := hnodup
    unfold List.Nodup at this
    rwa [List.pairwise_map] at this
  exact (hsorted.and hne).imp (fun h => by omega)

theorem allocate_stacks_by_id_descending_witness :
    ((on_dbus_call_notify (on_dbus_call_notify (graphene_notification_box_init 0)
        "Mail" 0 "mail-symbolic" "New message" "You have 1 new email" [] [] (-1)).1
        "Chat" 0 "chat-symbolic" "Hello" "" [] [] 0).1.children.map (fun n => n.id)) = [2, 3, 4]
    ∧ ((graphene_notification_box_allocate (on_dbus_call_notify (on_dbus_call_notify
        (graphene_notification_box_init 0)
        "Mail" 0 "mail-symbolic" "New message" "You have 1 new email" [] [] (-1)).1
        "Chat" 0 "chat-symbolic" "Hello" "" [] [] 0).1).map (fun p => p.1.id)) = [4, 3, 2]
    ∧ ((graphene_notification_box_allocate (on_dbus_call_notify (on_dbus_call_notify
        (graphene_notification_box_init 0)
        "Mail" 0 "mail-symbolic" "New message" "You have 1 new email" [] [] (-1)).1
        "Chat" 0 "chat-symbolic" "Hello" "" [] [] 0).1).map Prod.fst).Pairwise
        (fun a b => b.id < a.id) :=
  ⟨by decide, by decide,
    (allocate_stacks_by_id_descending _ (by decide)).2⟩

/-! ## Theorems: failure notification, timeouts, closing -/

theorem remove_server_fail_of_zero (s : GrapheneNotificationBox)
    (h : s.failNotificationId = 0) : remove_server_fail_notification s = s := by
  unfold remove_server_fail_notification
  simp [h]

theorem post_server_fail_failId (s : GrapheneNotificationBox)
    (h : s.failNotificationId = 0) :
    (post_server_fail_notification s).failNotificationId = 0 := by
  unfold post_server_fail_notification
  simp [remove_server_fail_of_zero s h, add_notification, h]

/-- C11, evaluated on the code: a box is created with its bus name requested,
the name is lost (`post_server_fail_notification` displays the failure
notification, id 2) and then acquired.  `post_server_fail_notification` never
stores the id in `failNotificationId`, so `remove_server_fail_notification`
returns at its first test and the failure notification is still displayed. -/
theorem fail_notification_survives_name_acquired :
    boxNameLost.children.map (fun n => (n.id, n.urgency)) = [(2, NOTIFICATION_URGENCY_CRITICAL)]
    ∧ boxNameLost.failNotificationId = 0
    ∧ on_dbus_name_acquired boxNameLost = boxNameLost
    ∧ (on_dbus_name_acquired boxNameLost).children.map (fun n => (n.id, n.urgency, n.icon))
        = [(2, NOTIFICATION_URGENCY_CRITICAL, "dialog-warning-symbolic")] := by
  decide

/-- The defect behind C11 does not depend on the box: whenever
`failNotificationId` is 0, which no function of the box ever changes, the
failure notification just posted is still the last child after
`on_dbus_name_acquired`. -/
theorem name_acquired_after_post_keeps_children (s : GrapheneNotificationBox)
    (h : s.failNotificationId = 0) :
    on_dbus_name_acquired (post_server_fail_notification s) = post_server_fail_notification s
    ∧ (post_server_fail_notification s).children.length = s.children.length + 1 := by
  refine ⟨remove_server_fail_of_zero _ (post_server_fail_failId s h), ?_⟩
  unfold post_server_fail_notification
  simp [remove_server_fail_of_zero s h, add_notification]

/-- C12: `graphene_notification_set_timeout (n, t)` drops the countdown that
was armed (its result is the same as on the notification with the countdown
stopped, and no other field changes); then for t < 0 a countdown of 5000 ms
is armed and `timeout` is 5000, for t = 0 no countdown is armed and `timeout`
is 0, for t > 0 a countdown of t ms is armed and `timeout` is t. -/
theorem set_timeout_cases (n : GrapheneNotification) (t : Int) :
    graphene_notification_set_timeout n t
        = graphene_notification_set_timeout (graphene_notification_stop_timeout n) t
    ∧ (t < 0 → (graphene_notification_set_timeout n t).timeoutSource = some 5000
          ∧ (graphene_notification_set_timeout n t).timeout = 5000)
    ∧ (t = 0 → (graphene_notification_set_timeout n t).timeoutSource = none
          ∧ (graphene_notification_set_timeout n t).timeout = 0)
    ∧ (0 < t → (graphene_notification_set_timeout n t).timeoutSource = some t
          ∧ (graphene_notification_set_timeout n t).timeout = t)
    ∧ (graphene_notification_set_timeout n t).id = n.id
    ∧ (graphene_notification_set_timeout n t).urgency = n.urgency
    ∧ (graphene_notification_set_timeout n t).icon = n.icon
    ∧ (graphene_notification_set_timeout n t).text = n.text := by
  refine ⟨rfl, ?_, ?_, ?_, ?_, ?_, ?_, ?_⟩
  · intro h
    simp [graphene_notification_set_timeout, graphene_notification_stop_timeout, h,
      NOTIFICATION_DEFAULT_SHOW_TIME]
  · intro h
    subst h
    simp [graphene_notification_set_timeout, graphene_notification_stop_timeout]
  · intro h
    have h' : ¬ t < 0 := by omega
    simp [graphene_notification_set_timeout, graphene_notification_stop_timeout, h, h']
  · exact set_timeout_id n t
  all_goals
    unfold graphene_notification_set_timeout graphene_notification_stop_timeout
    simp only []
    split <;> split <;> rfl

theorem set_timeout_cases_witness :
    ((-1 : Int) < 0 →
      (graphene_notification_set_timeout graphene_notification_new (-1)).timeoutSource
          = some 5000
        ∧ (graphene_notification_set_timeout graphene_notification_new (-1)).timeout = 5000) :=
  (set_timeout_cases graphene_notification_new (-1)).2.1

theorem leave_enter_after_set_timeout (n : GrapheneNotification) (t : Int) :
    graphene_notification_leave
        (graphene_notification_enter (graphene_notification_set_timeout n t))
      = graphene_notification_set_timeout n t := by
  unfold graphene_notification_leave graphene_notification_enter
    graphene_notification_set_timeout graphene_notification_stop_timeout
  simp only [NOTIFICATION_DEFAULT_SHOW_TIME]
  by_cases h1 : t < 0
  · simp [h1]
  · by_cases h2 : 0 < t
    · simp [h1, h2]
    · simp [h1, h2]

/-- C13: for a notification whose countdown was set by `set_timeout (t)`, a
pointer-enter leaves no countdown armed; the pointer-leave that follows gives
back the very notification that `set_timeout (t)` produced, so the countdown
armed again is the one armed originally (5000 ms if t < 0, t ms if t > 0,
none if t = 0); and any number of enter/leave repetitions gives that same
notification. -/
theorem hover_rearms_original_duration (n : GrapheneNotification) (t : Int) (k : Nat) :
    (graphene_notification_enter (graphene_notification_set_timeout n t)).timeoutSource = none
    ∧ graphene_notification_leave
          (graphene_notification_enter (graphene_notification_set_timeout n t))
        = graphene_notification_set_timeout n t
    ∧ hoverCycles k (graphene_notification_set_timeout n t)
        = graphene_notification_set_timeout n t
    ∧ (graphene_notification_set_timeout n t).timeoutSource
        = (if t < 0 then some 5000 else if t = 0 then none else some t) := by
  refine ⟨rfl, leave_enter_after_set_timeout n t, ?_, ?_⟩
  · induction k with
    | zero => rfl
    | succ k ih =>
      unfold hoverCycles
      rw [leave_enter_after_set_timeout]
      exact ih
  · unfold graphene_notification_set_timeout graphene_notification_stop_timeout
    simp only [NOTIFICATION_DEFAULT_SHOW_TIME]
    by_cases h1 : t < 0
    · simp [h1]
    · by_cases h2 : t = 0
      · simp [h2]
      · have h3 : 0 < t := by omega
        simp [h1, h2, h3]

theorem pointerRun_keeps_unarmed (evs : List PointerEvent) :
    ∀ n : GrapheneNotification, n.timeout = 0 → n.timeoutSource = none →
      (pointerRun n evs).timeoutSource = none ∧ (pointerRun n evs).timeout = 0 := by
  induction evs with
  | nil => intro n h0 hs; exact ⟨hs, h0⟩
  | cons ev rest ih =>
    intro n h0 hs
    cases ev with
    | enter =>
      exact ih (graphene_notification_enter n) h0 rfl
    | leave =>
      have hl : graphene_notification_leave n = { n with timeoutSource := none } := by
        unfold graphene_notification_leave graphene_notification_set_timeout
          graphene_notification_stop_timeout
        simp [h0]
      apply ih (graphene_notification_leave n)
      · rw [hl]; exact h0
      · rw [hl]

/-- C14: the failure notification that `post_server_fail_notification` adds
to the box (the last child afterwards) has urgency CRITICAL and no countdown
armed, and after every sequence of pointer-enter and pointer-leave events on
it still none is armed, so no timeout ever removes it. -/
theorem fail_notification_never_expires (s : GrapheneNotificationBox)
    (evs : List PointerEvent) :
    ∃ n : GrapheneNotification,
      (post_server_fail_notification s).children
          = (remove_server_fail_notification s).children ++ [n]
      ∧ n.urgency = NOTIFICATION_URGENCY_CRITICAL
      ∧ n.timeoutSource = none
      ∧ (pointerRun n evs).timeoutSource = none := by
  refine ⟨_, rfl, rfl, rfl, ?_⟩
  exact (pointerRun_keeps_unarmed evs _ rfl rfl).1

theorem find_erase_of_nodup (id : Nat) (l : List GrapheneNotification) :
    (l.map (fun n => n.id)).Nodup →
      (match l.find? (fun child => child.id == id) with
        | some n => l.erase n
        | none => l) = l.filter (fun n => decide (n.id ≠ id)) := by
  induction l with
  | nil => intro _; rfl
  | cons a rest ih =>
    intro hnodup
    rw [List.map_cons, List.nodup_cons] at hnodup
    obtain ⟨hnot, hrest⟩ := hnodup
    by_cases ha : a.id = id
    · have hfind : (a :: rest).find? (fun child => child.id == id) = some a :=
        List.find?_cons_of_pos rest (by simp [ha])
      rw [hfind]
      simp only [List.erase_cons_head]
      have hkeep : rest.filter (fun n => decide (n.id ≠ id)) = rest := by
        rw [List.filter_eq_self]
        intro b hb
        simp only [decide_eq_true_eq]
        intro hbid
        exact hnot (List.mem_map.mpr ⟨b, hb, by rw [hbid, ha]⟩)
      have hdrop : decide (a.id ≠ id) = false := by simp [ha]
      rw [List.filter_cons, hdrop, hkeep]
      simp
    · have hfind : (a :: rest).find? (fun child => child.id == id)
          = rest.find? (fun child => child.id == id) :=
        List.find?_cons_of_neg rest (by simp [ha])
      rw [hfind]
      have ih' := ih hrest
      have hkeepa : decide (a.id ≠ id) = true := by simp [ha]
      rw [List.filter_cons, hkeepa]
      simp only [if_true]
      cases hf : rest.find? (fun child => child.id == id) with
      | none =>
        rw [hf] at ih'
        simp only at ih' ⊢
        rw [← ih']
      | some n =>
        rw [hf] at ih'
        simp only at ih' ⊢
        have hnid : n.id = id := by
          have := List.find?_some hf
          simpa using this
        have hne : a ≠ n := fun e => ha (e ▸ hnid)
        rw [List.erase_cons_tail (by simpa using hne), ih']

/-- C15: on a box whose displayed notifications have pairwise distinct ids,
`CloseNotification (id)` leaves exactly the displayed notifications whose id
is not `id`, in their order: the one carrying the id is removed if there is
one and every other one stays; when none carries the id the box is unchanged.
The function returns a box for every input. -/
theorem close_notification_removes_only_id (self : GrapheneNotificationBox) (id : Nat)
    (hdistinct : (self.children.map (fun n => n.id)).Nodup) :
    (on_dbus_call_close_notification self id).children
        = self.children.filter (fun n => decide (n.id ≠ id))
    ∧ (∀ n ∈ (on_dbus_call_close_notification self id).children, n.id ≠ id)
    ∧ (∀ n ∈ self.children, n.id ≠ id →
        n ∈ (on_dbus_call_close_notification self id).children)
    ∧ ((∀ n ∈ self.children, n.id ≠ id) → on_dbus_call_close_notification self id = self) := by
  have hchildren : (on_dbus_call_close_notification self id).children
      = self.children.filter (fun n => decide (n.id ≠ id)) := by
    rw [← find_erase_of_nodup id self.children hdistinct]
    unfold on_dbus_call_close_notification get_notification_by_id remove_notification
    cases self.children.find? (fun child => child.id == id) <;> rfl
  refine ⟨hchildren, ?_, ?_, ?_⟩
  · intro n hn
    rw [hchildren, List.mem_filter] at hn
    simpa using hn.2
  · intro n hn hne
    rw [hchildren, List.mem_filter]
    exact ⟨hn, by simpa using hne⟩
  · intro hall
    have hnone : self.children.find? (fun child => child.id == id) = none := by
      rw [List.find?_eq_none]
      intro n hn
      simpa using hall n hn
    unfold on_dbus_call_close_notification get_notification_by_id
    rw [hnone]

theorem close_notification_removes_only_id_witness :
    ((on_dbus_call_notify boxNameLost "Mail" 0 "mail-symbolic" "New message"
        "You have 1 new email" [] [] (-1)).1.children.map (fun n => n.id)).Nodup
    ∧ (on_dbus_call_notify boxNameLost "Mail" 0 "mail-symbolic" "New message"
        "You have 1 new email" [] [] (-1)).1.children.map (fun n => n.id) = [2, 3]
    ∧ (on_dbus_call_close_notification (on_dbus_call_notify boxNameLost "Mail" 0
        "mail-symbolic" "New message" "You have 1 new email" [] [] (-1)).1 2).children.map
        (fun n => n.id) = [3]
    ∧ (on_dbus_call_close_notification (on_dbus_call_notify boxNameLost "Mail" 0
        "mail-symbolic" "New message" "You have 1 new email" [] [] (-1)).1 2).children
        = (on_dbus_call_notify boxNameLost "Mail" 0 "mail-symbolic" "New message"
            "You have 1 new email" [] [] (-1)).1.children.filter
            (fun n => decide (n.id ≠ 2)) :=
  ⟨by decide, by decide, by decide,
    (close_notification_removes_only_id _ 2 (by decide)).1⟩

/-! ## Theorems: window transitions -/

theorem runDoneHandler_handlers (h : DoneHandler) (a : WindowActor) :
    (runDoneHandler h a).handlers = a.handlers.filter (fun x => decide (x ≠ h)) := by
  cases h <;> rfl

theorem runDoneHandler_markers (h : DoneHandler) (a : WindowActor) :
    ((runDoneHandler h a).minimizing = true → a.minimizing = true)
    ∧ ((runDoneHandler h a).unminimizing = true → a.unminimizing = true) := by
  cases h <;>
    simp [runDoneHandler, minimize_done, unminimize_done, destroy_done, map_done]

theorem runDoneHandler_calls (h : DoneHandler) (a : WindowActor) :
    ∃ added : List WindowCall,
      (runDoneHandler h a).calls = a.calls ++ added
      ∧ added.head? = some (WindowCall.signal_handlers_disconnect_by_func h)
      ∧ acknowledgements added = [completedCall h]
      ∧ ∀ k : DoneHandler, added.count (completedCall k) = if k = h then 1 else 0 := by
  cases h
  · exact ⟨[.signal_handlers_disconnect_by_func .minimize_done, .hide,
      .meta_plugin_minimize_completed, .set_minimizing false],
      by simp [runDoneHandler, minimize_done], rfl, rfl, fun k => by cases k <;> decide⟩
  · exact ⟨[.signal_handlers_disconnect_by_func .unminimize_done,
      .meta_plugin_unminimize_completed, .set_unminimizing false],
      by simp [runDoneHandler, unminimize_done], rfl, rfl, fun k => by cases k <;> decide⟩
  · exact ⟨[.signal_handlers_disconnect_by_func .destroy_done, .meta_plugin_destroy_completed],
      by simp [runDoneHandler, destroy_done], rfl, rfl, fun k => by cases k <;> decide⟩
  · exact ⟨[.signal_handlers_disconnect_by_func .map_done, .meta_plugin_map_completed],
      by simp [runDoneHandler, map_done], rfl, rfl, fun k => by cases k <;> decide⟩

theorem windowCalls_of_append (before after : WindowActor) (l : List WindowCall)
    (h : after.calls = before.calls ++ l) : windowCalls before after = l := by
  unfold windowCalls
  rw [h]
  simp

/-- What an emission does, for any part `L` of the handler list still to be
walked: the handlers left are those not in `L`, and the acknowledgement of a
handler is sent once if the handler is in `L` and still connected, and not at
all otherwise. -/
theorem emission_fold (L : List DoneHandler) :
    ∀ a : WindowActor,
      (L.foldl (fun a h => if h ∈ a.handlers then runDoneHandler h a else a) a).handlers
          = a.handlers.filter (fun x => decide (x ∉ L))
      ∧ ((L.foldl (fun a h => if h ∈ a.handlers then runDoneHandler h a else a) a).minimizing
            = true → a.minimizing = true)
      ∧ ((L.foldl (fun a h => if h ∈ a.handlers then runDoneHandler h a else a) a).unminimizing
            = true → a.unminimizing = true)
      ∧ ∃ added : List WindowCall,
          (L.foldl (fun a h => if h ∈ a.handlers then runDoneHandler h a else a) a).calls
            = a.calls ++ added
          ∧ ∀ k : DoneHandler,
              added.count (completedCall k) = if k ∈ L ∧ k ∈ a.handlers then 1 else 0 := by
  induction L with
  | nil =>
    intro a
    refine ⟨by simp, id, id, [], by simp, fun k => by simp⟩
  | cons h t ih =>
    intro a
    simp only [List.foldl_cons]
    by_cases hmem : h ∈ a.handlers
    · simp only [hmem, if_true]
      obtain ⟨hh, hmin, hun, added2, hc2, hcount2⟩ := ih (runDoneHandler h a)
      obtain ⟨added1, hc1, _, _, hcount1⟩ := runDoneHandler_calls h a
      have hmark := runDoneHandler_markers h a
      refine ⟨?_, fun e => hmark.1 (hmin e), fun e => hmark.2 (hun e),
        added1 ++ added2, ?_, ?_⟩
      · rw [hh, runDoneHandler_handlers, List.filter_filter]
        apply List.filter_congr
        intro x _
        simp only [List.mem_cons, not_or, Bool.decide_and]
        rw [Bool.and_comm]
      · rw [hc2, hc1, List.append_assoc]
      · intro k
        rw [List.count_append, hcount1 k, hcount2 k, runDoneHandler_handlers]
        by_cases hk : k = h
        · subst hk
          simp [hmem]
        · simp [hk, List.mem_filter]
    · simp only [hmem, if_false]
      obtain ⟨hh, hmin, hun, added2, hc2, hcount2⟩ := ih a
      refine ⟨?_, hmin, hun, added2, hc2, ?_⟩
      · rw [hh]
        apply List.filter_congr
        intro x hx
        have hxh : x ≠ h := fun e => hmem (e ▸ hx)
        simp [hxh]
      · intro k
        rw [hcount2 k]
        by_cases hk : k = h
        · subst hk
          simp [hmem]
        · simp [hk]

theorem transitions_completed_spec (a : WindowActor) :
    (transitions_completed a).handlers = []
    ∧ ((transitions_completed a).minimizing = true → a.minimizing = true)
    ∧ ((transitions_completed a).unminimizing = true → a.unminimizing = true)
    ∧ ∃ added : List WindowCall,
        (transitions_completed a).calls = a.calls ++ added
        ∧ ∀ k : DoneHandler,
            added.count (completedCall k) = if k ∈ a.handlers then 1 else 0 := by
  obtain ⟨hh, hmin, hun, added, hc, hcount⟩ := emission_fold a.handlers a
  refine ⟨?_, hmin, hun, added, hc, ?_⟩
  · show (a.handlers.foldl _ a).handlers = []
    rw [hh, List.filter_eq_nil_iff]
    intro x hx
    simp [hx]
  · intro k
    rw [hcount k]
    simp

theorem minimize_markers (a : WindowActor) :
    (graphene_wm_minimize a).minimizing = true
    ∧ (graphene_wm_minimize a).unminimizing = false := by
  unfold graphene_wm_minimize
  cases hu : a.unminimizing <;> simp [unminimize_done, hu]

theorem unminimize_markers (a : WindowActor) :
    (graphene_wm_unminimize a).unminimizing = true
    ∧ (graphene_wm_unminimize a).minimizing = false := by
  unfold graphene_wm_unminimize
  cases hm : a.minimizing <;> simp [minimize_done, hm]

theorem destroy_markers (a : WindowActor) (type : MetaWindowType) :
    (graphene_wm_destroy a type).minimizing = a.minimizing
    ∧ (graphene_wm_destroy a type).unminimizing = a.unminimizing := by
  cases type <;> exact ⟨rfl, rfl⟩

theorem map_markers (a : WindowActor) (type : MetaWindowType) (role : Option String) :
    (graphene_wm_map a type role).minimizing = a.minimizing
    ∧ (graphene_wm_map a type role).unminimizing = a.unminimizing := by
  unfold graphene_wm_map
  cases type <;> (simp only []; split <;> exact ⟨rfl, rfl⟩)

theorem markers_step (a : WindowActor) (ev : WindowEvent)
    (h : ¬ (a.minimizing = true ∧ a.unminimizing = true)) :
    ¬ ((windowStep a ev).minimizing = true ∧ (windowStep a ev).unminimizing = true) := by
  cases ev with
  | minimize =>
    have := minimize_markers a
    show ¬ ((graphene_wm_minimize a).minimizing = true ∧ (graphene_wm_minimize a).unminimizing = true)
    simp [this.2]
  | unminimize =>
    have := unminimize_markers a
    show ¬ ((graphene_wm_unminimize a).minimizing = true
      ∧ (graphene_wm_unminimize a).unminimizing = true)
    simp [this.2]
  | destroy type =>
    have := destroy_markers a type
    show ¬ ((graphene_wm_destroy a type).minimizing = true
      ∧ (graphene_wm_destroy a type).unminimizing = true)
    rw [this.1, this.2]; exact h
  | map type role =>
    have := map_markers a type role
    show ¬ ((graphene_wm_map a type role).minimizing = true
      ∧ (graphene_wm_map a type role).unminimizing = true)
    rw [this.1, this.2]; exact h
  | transitions_completed =>
    obtain ⟨_, hmin, hun, _⟩ := transitions_completed_spec a
    show ¬ ((transitions_completed a).minimizing = true
      ∧ (transitions_completed a).unminimizing = true)
    exact fun hb => h ⟨hmin hb.1, hun hb.2⟩

theorem markers_run (evs : List WindowEvent) :
    ∀ a : WindowActor, ¬ (a.minimizing = true ∧ a.unminimizing = true) →
      ¬ ((windowRun a evs).minimizing = true ∧ (windowRun a evs).unminimizing = true) := by
  induction evs with
  | nil => intro a h; exact h
  | cons ev rest ih => intro a h; exact ih _ (markers_step a ev h)

theorem minimize_calls_when_unminimizing (a : WindowActor) (hun : a.unminimizing = true) :
    windowCalls a (graphene_wm_minimize a)
      = [WindowCall.signal_handlers_disconnect_by_func .unminimize_done,
          WindowCall.meta_plugin_unminimize_completed, WindowCall.set_unminimizing false,
          WindowCall.set_minimizing true, WindowCall.remove_all_transitions,
          WindowCall.signal_connect .minimize_done, WindowCall.ease] := by
  apply windowCalls_of_append
  unfold graphene_wm_minimize
  simp [hun, unminimize_done]

/-- C16: in every state reached from a fresh window actor by
`graphene_wm_minimize`, `graphene_wm_unminimize` and emissions of
"transitions_completed" (and by destroy and map requests as well), the
markers "minimizing" and "unminimizing" are not both true; and in such a state
with "unminimizing" true, `graphene_wm_minimize` first does what
`unminimize_done` does (disconnects it, acknowledges the unminimize, clears
"unminimizing") and only then sets "minimizing". -/
theorem markers_never_both (evs : List WindowEvent) :
    ¬ ((windowRun freshWindowActor evs).minimizing = true
        ∧ (windowRun freshWindowActor evs).unminimizing = true)
    ∧ ((windowRun freshWindowActor evs).unminimizing = true →
        windowCalls (windowRun freshWindowActor evs)
            (graphene_wm_minimize (windowRun freshWindowActor evs))
          = [WindowCall.signal_handlers_disconnect_by_func .unminimize_done,
              WindowCall.meta_plugin_unminimize_completed, WindowCall.set_unminimizing false,
              WindowCall.set_minimizing true, WindowCall.remove_all_transitions,
              WindowCall.signal_connect .minimize_done, WindowCall.ease]
        ∧ (graphene_wm_minimize (windowRun freshWindowActor evs)).unminimizing = false
        ∧ (graphene_wm_minimize (windowRun freshWindowActor evs)).minimizing = true) := by
  refine ⟨markers_run evs freshWindowActor (by decide), ?_⟩
  intro hun
  exact ⟨minimize_calls_when_unminimizing _ hun, (minimize_markers _).2, (minimize_markers _).1⟩

theorem markers_never_both_witness :
    (windowRun freshWindowActor [WindowEvent.minimize, WindowEvent.unminimize]).unminimizing
        = true
    ∧ ¬ ((windowRun freshWindowActor [WindowEvent.minimize, WindowEvent.unminimize]).minimizing
          = true
        ∧ (windowRun freshWindowActor [WindowEvent.minimize, WindowEvent.unminimize]).unminimizing
          = true)
    ∧ (graphene_wm_minimize
        (windowRun freshWindowActor [WindowEvent.minimize, WindowEvent.unminimize])).unminimizing
        = false :=
  ⟨by decide, (markers_never_both [WindowEvent.minimize, WindowEvent.unminimize]).1,
    ((markers_never_both [WindowEvent.minimize, WindowEvent.unminimize]).2 (by decide)).2.1⟩

/-- C17: on a fresh window actor, `graphene_wm_minimize`, then
`graphene_wm_unminimize` before any emission, then one emission of
"transitions_completed" send exactly one minimize-completed and then exactly
one unminimize-completed acknowledgement, and both markers end false.  The
minimize is acknowledged by the unminimize request, the unminimize by the
emission. -/
theorem minimize_then_unminimize_acks :
    acknowledgements
        (windowRun freshWindowActor [WindowEvent.minimize, WindowEvent.unminimize]).calls
      = [WindowCall.meta_plugin_minimize_completed]
    ∧ acknowledgements
        (windowRun freshWindowActor
          [WindowEvent.minimize, WindowEvent.unminimize, WindowEvent.transitions_completed]).calls
      = [WindowCall.meta_plugin_minimize_completed, WindowCall.meta_plugin_unminimize_completed]
    ∧ (windowRun freshWindowActor
          [WindowEvent.minimize, WindowEvent.unminimize,
            WindowEvent.transitions_completed]).minimizing = false
    ∧ (windowRun freshWindowActor
          [WindowEvent.minimize, WindowEvent.unminimize,
            WindowEvent.transitions_completed]).unminimizing = false
    ∧ (windowRun freshWindowActor
          [WindowEvent.minimize, WindowEvent.unminimize,
            WindowEvent.transitions_completed]).handlers = [] := by
  decide

theorem destroy_animated (a : WindowActor) (type : MetaWindowType)
    (h : animatedWindowType type = true) :
    (graphene_wm_destroy a type).handlers = a.handlers ++ [DoneHandler.destroy_done]
    ∧ (graphene_wm_destroy a type).calls
        = a.calls ++ [WindowCall.remove_all_transitions,
            WindowCall.signal_connect .destroy_done, WindowCall.ease] := by
  cases type <;> simp [animatedWindowType] at h <;> simp [graphene_wm_destroy]

theorem destroy_plain (a : WindowActor) (type : MetaWindowType)
    (h : animatedWindowType type = false) :
    (graphene_wm_destroy a type).handlers = a.handlers
    ∧ (graphene_wm_destroy a type).calls
        = a.calls ++ [WindowCall.remove_all_transitions,
            WindowCall.meta_plugin_destroy_completed] := by
  cases type <;> simp [animatedWindowType] at h <;> simp [graphene_wm_destroy]

theorem map_animated (a : WindowActor) (type : MetaWindowType) (role : Option String)
    (h : animatedWindowType type = true) :
    (graphene_wm_map a type role).handlers = a.handlers ++ [DoneHandler.map_done]
    ∧ (graphene_wm_map a type role).calls
        = a.calls ++ ([WindowCall.remove_all_transitions, WindowCall.show,
            WindowCall.signal_connect .map_done, WindowCall.ease]
          ++ (if role = some "GrapheneDock" ∨ role = some "GraphenePopup"
              then [WindowCall.set_shadow_dock] else [])) := by
  by_cases hr : role = some "GrapheneDock" ∨ role = some "GraphenePopup"
  · cases type <;> simp [animatedWindowType] at h <;> simp [graphene_wm_map, hr]
  · cases type <;> simp [animatedWindowType] at h <;> simp [graphene_wm_map, hr]

theorem map_plain (a : WindowActor) (type : MetaWindowType) (role : Option String)
    (h : animatedWindowType type = false) :
    (graphene_wm_map a type role).handlers = a.handlers
    ∧ (graphene_wm_map a type role).calls
        = a.calls ++ ([WindowCall.remove_all_transitions,
            WindowCall.meta_plugin_map_completed]
          ++ (if role = some "GrapheneDock" ∨ role = some "GraphenePopup"
              then [WindowCall.set_shadow_dock] else [])) := by
  by_cases hr : role = some "GrapheneDock" ∨ role = some "GraphenePopup"
  · cases type <;> simp [animatedWindowType] at h <;> simp [graphene_wm_map, hr]
  · cases type <;> simp [animatedWindowType] at h <;> simp [graphene_wm_map, hr]

theorem emission_count (a : WindowActor) (k : DoneHandler) :
    (windowCalls a (transitions_completed a)).count (completedCall k)
      = if k ∈ a.handlers then 1 else 0 := by
  obtain ⟨_, _, _, added, hc, hcount⟩ := transitions_completed_spec a
  rw [windowCalls_of_append a _ added hc]
  exact hcount k

/-- C18: for `graphene_wm_destroy` and `graphene_wm_map` and every window
type: for NORMAL, NOTIFICATION, DIALOG and MODAL_DIALOG the request sends no
acknowledgement and connects its completion handler, and the next emission of
"transitions_completed" sends the acknowledgement exactly once; for every
other type the request sends the acknowledgement at once, exactly once, and
connects no handler. -/
theorem destroy_map_acknowledge (a : WindowActor) (type : MetaWindowType)
    (role : Option String) :
    (animatedWindowType type = true ↔
      type = .NORMAL ∨ type = .NOTIFICATION ∨ type = .DIALOG ∨ type = .MODAL_DIALOG)
    ∧ (animatedWindowType type = true →
        acknowledgements (windowCalls a (graphene_wm_destroy a type)) = []
        ∧ (graphene_wm_destroy a type).handlers = a.handlers ++ [DoneHandler.destroy_done]
        ∧ (windowCalls (graphene_wm_destroy a type)
            (transitions_completed (graphene_wm_destroy a type))).count
            WindowCall.meta_plugin_destroy_completed = 1
        ∧ acknowledgements (windowCalls a (graphene_wm_map a type role)) = []
        ∧ (graphene_wm_map a type role).handlers = a.handlers ++ [DoneHandler.map_done]
        ∧ (windowCalls (graphene_wm_map a type role)
            (transitions_completed (graphene_wm_map a type role))).count
            WindowCall.meta_plugin_map_completed = 1)
    ∧ (animatedWindowType type = false →
        acknowledgements (windowCalls a (graphene_wm_destroy a type))
          = [WindowCall.meta_plugin_destroy_completed]
        ∧ (graphene_wm_destroy a type).handlers = a.handlers
        ∧ acknowledgements (windowCalls a (graphene_wm_map a type role))
          = [WindowCall.meta_plugin_map_completed]
        ∧ (graphene_wm_map a type role).handlers = a.handlers) := by
  refine ⟨by cases type <;> simp [animatedWindowType], ?_, ?_⟩
  · intro h
    obtain ⟨hdh, hdc⟩ := destroy_animated a type h
    obtain ⟨hmh, hmc⟩ := map_animated a type role h
    have hd := emission_count (graphene_wm_destroy a type) DoneHandler.destroy_done
    have hm := emission_count (graphene_wm_map a type role) DoneHandler.map_done
    rw [hdh] at hd
    rw [hmh] at hm
    rw [windowCalls_of_append a _ _ hdc, windowCalls_of_append a _ _ hmc]
    refine ⟨by decide, hdh, by simpa [completedCall] using hd, ?_, hmh,
      by simpa [completedCall] using hm⟩
    by_cases hr : role = some "GrapheneDock" ∨ role = some "GraphenePopup"
    · simp only [hr, if_true]; decide
    · simp only [hr, if_false]; decide
  · intro h
    obtain ⟨hdh, hdc⟩ := destroy_plain a type h
    obtain ⟨hmh, hmc⟩ := map_plain a type role h
    rw [windowCalls_of_append a _ _ hdc, windowCalls_of_append a _ _ hmc]
    refine ⟨by decide, hdh, ?_, hmh⟩
    by_cases hr : role = some "GrapheneDock" ∨ role = some "GraphenePopup"
    · simp only [hr, if_true]; decide
    · simp only [hr, if_false]; decide

theorem destroy_map_acknowledge_witness :
    (animatedWindowType MetaWindowType.DOCK = false →
      acknowledgements (windowCalls freshWindowActor
          (graphene_wm_destroy freshWindowActor MetaWindowType.DOCK))
        = [WindowCall.meta_plugin_destroy_completed]
      ∧ (graphene_wm_destroy freshWindowActor MetaWindowType.DOCK).handlers
        = freshWindowActor.handlers
      ∧ acknowledgements (windowCalls freshWindowActor
          (graphene_wm_map freshWindowActor MetaWindowType.DOCK (some "GrapheneDock")))
        = [WindowCall.meta_plugin_map_completed]
      ∧ (graphene_wm_map freshWindowActor MetaWindowType.DOCK (some "GrapheneDock")).handlers
        = freshWindowActor.handlers) :=
  (destroy_map_acknowledge freshWindowActor MetaWindowType.DOCK (some "GrapheneDock")).2.2

theorem request_connects (a : WindowActor) (req : WindowEvent) (h : DoneHandler)
    (hreq : requestHandler req = some h) :
    h ∈ (windowStep a req).handlers
    ∧ ∃ added : List WindowCall,
        (windowStep a req).calls = a.calls ++ added
        ∧ added.count (completedCall h) = 0 := by
  cases req with
  | minimize =>
    simp only [requestHandler, Option.some.injEq] at hreq
    subst hreq
    cases hu : a.unminimizing
    · exact ⟨by simp [windowStep, graphene_wm_minimize, hu],
        [.set_minimizing true, .remove_all_transitions, .signal_connect .minimize_done, .ease],
        by simp [windowStep, graphene_wm_minimize, hu], by decide⟩
    · exact ⟨by simp [windowStep, graphene_wm_minimize, hu, unminimize_done],
        [.signal_handlers_disconnect_by_func .unminimize_done,
          .meta_plugin_unminimize_completed, .set_unminimizing false,
          .set_minimizing true, .remove_all_transitions, .signal_connect .minimize_done, .ease],
        by simp [windowStep, graphene_wm_minimize, hu, unminimize_done], by decide⟩
  | unminimize =>
    simp only [requestHandler, Option.some.injEq] at hreq
    subst hreq
    cases hm : a.minimizing
    · exact ⟨by simp [windowStep, graphene_wm_unminimize, hm],
        [.set_unminimizing true, .show, .remove_all_transitions,
          .signal_connect .unminimize_done, .ease],
        by simp [windowStep, graphene_wm_unminimize, hm], by decide⟩
    · exact ⟨by simp [windowStep, graphene_wm_unminimize, hm, minimize_done],
        [.signal_handlers_disconnect_by_func .minimize_done, .hide,
          .meta_plugin_minimize_completed, .set_minimizing false,
          .set_unminimizing true, .show, .remove_all_transitions,
          .signal_connect .unminimize_done, .ease],
        by simp [windowStep, graphene_wm_unminimize, hm, minimize_done], by decide⟩
  | destroy type =>
    cases ht : animatedWindowType type
    · simp [requestHandler, ht] at hreq
    · simp only [requestHandler, ht, if_true, Option.some.injEq] at hreq
      subst hreq
      obtain ⟨hh, hc⟩ := destroy_animated a type ht
      exact ⟨by simp [windowStep, hh], _, hc, by decide⟩
  | map type role =>
    cases ht : animatedWindowType type
    · simp [requestHandler, ht] at hreq
    · simp only [requestHandler, ht, if_true, Option.some.injEq] at hreq
      subst hreq
      obtain ⟨hh, hc⟩ := map_animated a type role ht
      refine ⟨by simp [windowStep, hh], _, hc, ?_⟩
      by_cases hr : role = some "GrapheneDock" ∨ role = some "GraphenePopup"
      · simp only [hr, if_true]; decide
      · simp only [hr, if_false]; decide
  | transitions_completed =>
    simp [requestHandler] at hreq

/-- C19: each of the four completion handlers first disconnects itself (the
first call it makes is `g_signal_handlers_disconnect_by_func` with itself,
after which it is not connected any more) and sends its acknowledgement after
that; so for every request that connects a handler, made in any state and
followed by two emissions of "transitions_completed" with no request in
between, the acknowledgement of that request is sent exactly once. -/
theorem done_handler_acknowledges_once (a : WindowActor) (req : WindowEvent)
    (h : DoneHandler) (hreq : requestHandler req = some h) :
    (windowCalls a (runDoneHandler h a)).head?
        = some (WindowCall.signal_handlers_disconnect_by_func h)
    ∧ acknowledgements (windowCalls a (runDoneHandler h a)) = [completedCall h]
    ∧ h ∉ (runDoneHandler h a).handlers
    ∧ (windowCalls a
        (transitions_completed (transitions_completed (windowStep a req)))).count
        (completedCall h) = 1 := by
  obtain ⟨added, hc, hhead, hack, _⟩ := runDoneHandler_calls h a
  rw [windowCalls_of_append a _ added hc]
  refine ⟨hhead, hack, ?_, ?_⟩
  · rw [runDoneHandler_handlers]
    simp [List.mem_filter]
  · obtain ⟨hmem, added0, hc0, hcount0⟩ := request_connects a req h hreq
    obtain ⟨hh1, _, _, added1, hc1, hcount1⟩ := transitions_completed_spec (windowStep a req)
    obtain ⟨_, _, _, added2, hc2, hcount2⟩ :=
      transitions_completed_spec (transitions_completed (windowStep a req))
    have hall : (transitions_completed (transitions_completed (windowStep a req))).calls
        = a.calls ++ (added0 ++ added1 ++ added2) := by
      rw [hc2, hc1, hc0]
      simp [List.append_assoc]
    rw [windowCalls_of_append a _ _ hall, List.count_append, List.count_append, hcount0,
      hcount1 h, hcount2 h, hh1]
    simp [hmem]

theorem done_handler_acknowledges_once_witness :
    requestHandler (WindowEvent.destroy MetaWindowType.NORMAL) = some DoneHandler.destroy_done
    ∧ (windowCalls freshWindowActor
        (transitions_completed (transitions_completed
          (windowStep freshWindowActor (WindowEvent.destroy MetaWindowType.NORMAL))))).count
        (completedCall DoneHandler.destroy_done) = 1 :=
  ⟨by decide,
    (done_handler_acknowledges_once freshWindowActor (WindowEvent.destroy MetaWindowType.NORMAL)
      DoneHandler.destroy_done (by decide)).2.2.2⟩

/-! ## Theorems: the modal dialog -/

theorem emitCloseHandlers_idle (dialog : Nat) (n : Nat) :
    ∀ s : GrapheneWMOverlay, (s.actors dialog).closeHandlers = 0 →
      emitCloseHandlers dialog n s = s := by
  induction n with
  | zero => intro s _; rfl
  | succ n ih =>
    intro s h
    unfold emitCloseHandlers
    simp only [h, Nat.lt_irrefl, if_false]
    exact ih s h

theorem close_dialog_complete_handlers (s : GrapheneWMOverlay) (dialog : Nat) :
    ((close_dialog_complete s dialog).actors dialog).closeHandlers = 0 := by
  unfold close_dialog_complete setDialogActor
  simp only []
  split <;> simp

/-- An emission on a dialog actor runs `close_dialog_complete` once when a
close handler is connected, whatever their number, and does nothing otherwise. -/
theorem dialog_transitions_completed_eq (s : GrapheneWMOverlay) (dialog : Nat) :
    dialog_transitions_completed s dialog
      = if 0 < (s.actors dialog).closeHandlers then close_dialog_complete s dialog else s := by
  unfold dialog_transitions_completed
  cases hn : (s.actors dialog).closeHandlers with
  | zero => simp [emitCloseHandlers]
  | succ n =>
    unfold emitCloseHandlers
    simp only [hn, Nat.succ_pos, if_true]
    exact emitCloseHandlers_idle dialog n _ (close_dialog_complete_handlers s dialog)

theorem overlayCalls_of_append (before after : GrapheneWMOverlay) (l : List OverlayCall)
    (h : after.calls = before.calls ++ l) : overlayCalls before after = l := by
  unfold overlayCalls
  rw [h]
  simp

/-- C20: when `graphene_wm_show_dialog` is called with a content actor while
a dialog D0 is the current one, D0 is made non-reactive and gets one more
`close_dialog_complete` handler, the current dialog becomes a new actor that
wraps the content, and the cover is shown with target opacity 255; when
"transitions_completed" of D0 is emitted afterwards, D0 is removed from the
stage once (and a further emission does not remove it again), the current
dialog is still the new one and the cover stays shown. -/
theorem show_dialog_while_active (scene : Scene) (self s1 s2 : GrapheneWMOverlay)
    (d0 content : Nat) (hactive : self.dialog = some d0) (hlive : d0 < self.nextActor)
    (h1 : s1 = graphene_wm_show_dialog scene self (some content))
    (h2 : s2 = dialog_transitions_completed s1 d0) :
    (s1.actors d0).reactive = false
    ∧ (s1.actors d0).closeHandlers = (self.actors d0).closeHandlers + 1
    ∧ s1.dialog = some self.nextActor
    ∧ (s1.actors self.nextActor).content = content
    ∧ (s1.actors self.nextActor).reactive = true
    ∧ s1.coverVisible = true
    ∧ s1.coverOpacityTarget = 255
    ∧ overlayCalls s1 s2
        = [OverlayCall.signal_handlers_disconnect_close d0, OverlayCall.remove_child d0]
    ∧ (overlayCalls s1 (dialog_transitions_completed s2 d0)).count
        (OverlayCall.remove_child d0) = 1
    ∧ s2.stage = s1.stage.erase d0
    ∧ s2.dialog = s1.dialog
    ∧ s2.coverVisible = true := by
  have hne : d0 ≠ self.nextActor := by omega
  have hne' : self.nextActor ≠ d0 := fun e => hne e.symm
  have hr : (s1.actors d0).reactive = false := by
    rw [h1]
    simp [graphene_wm_show_dialog, graphene_wm_close_dialog, setDialogActor, hactive, hne]
  have hh : (s1.actors d0).closeHandlers = (self.actors d0).closeHandlers + 1 := by
    rw [h1]
    simp [graphene_wm_show_dialog, graphene_wm_close_dialog, setDialogActor, hactive, hne]
  have hd : s1.dialog = some self.nextActor := by
    rw [h1]
    simp [graphene_wm_show_dialog, graphene_wm_close_dialog, setDialogActor, hactive]
  have hcv : s1.coverVisible = true := by
    rw [h1]
    simp [graphene_wm_show_dialog, graphene_wm_close_dialog, setDialogActor, hactive]
  have hs2 : s2 = close_dialog_complete s1 d0 := by
    rw [h2, dialog_transitions_completed_eq, hh]
    simp
  have hdne : ¬ (s1.dialog = some d0) := by
    rw [hd]
    simpa using hne'
  have hs2calls : s2.calls = s1.calls
      ++ [OverlayCall.signal_handlers_disconnect_close d0, OverlayCall.remove_child d0] := by
    rw [hs2]
    unfold close_dialog_complete
    simp [setDialogActor, hdne]
  have hs2idle : dialog_transitions_completed s2 d0 = s2 := by
    rw [dialog_transitions_completed_eq, hs2, close_dialog_complete_handlers]
    simp
  refine ⟨hr, hh, hd, ?_, ?_, hcv, ?_, overlayCalls_of_append s1 s2 _ hs2calls, ?_, ?_, ?_, ?_⟩
  · rw [h1]
    simp [graphene_wm_show_dialog, graphene_wm_close_dialog, setDialogActor, hactive]
  · rw [h1]
    simp [graphene_wm_show_dialog, graphene_wm_close_dialog, setDialogActor, hactive]
  · rw [h1]
    simp [graphene_wm_show_dialog, graphene_wm_close_dialog, setDialogActor, hactive]
  · rw [hs2idle, overlayCalls_of_append s1 s2 _ hs2calls]
    simp
  · rw [hs2]
    unfold close_dialog_complete
    simp [setDialogActor, hdne]
  · rw [hs2]
    unfold close_dialog_complete
    simp [setDialogActor, hdne]
  · rw [hs2]
    unfold close_dialog_complete
    simp [setDialogActor, hdne, hcv]

theorem show_dialog_while_active_witness :
    overlayWithDialog.dialog = some 0 ∧ 0 < overlayWithDialog.nextActor
    ∧ ((graphene_wm_show_dialog panelScene overlayWithDialog (some 9)).actors 0).reactive
        = false
    ∧ (graphene_wm_show_dialog panelScene overlayWithDialog (some 9)).dialog = some 1
    ∧ (dialog_transitions_completed
        (graphene_wm_show_dialog panelScene overlayWithDialog (some 9)) 0).stage = [1]
    ∧ (dialog_transitions_completed
        (graphene_wm_show_dialog panelScene overlayWithDialog (some 9)) 0).coverVisible = true :=
  ⟨by decide, by decide,
    (show_dialog_while_active panelScene overlayWithDialog _ _ 0 9 (by decide) (by decide)
      rfl rfl).1,
    by decide, by decide,
    (show_dialog_while_active panelScene overlayWithDialog _ _ 0 9 (by decide) (by decide)
      rfl rfl).2.2.2.2.2.2.2.2.2.2.2⟩

theorem close_dialog_fields (scene : Scene) (s : GrapheneWMOverlay) (closeCover : Bool) :
    (graphene_wm_close_dialog scene s closeCover).dialog = s.dialog
    ∧ (graphene_wm_close_dialog scene s closeCover).coverVisible = s.coverVisible
    ∧ (graphene_wm_close_dialog scene s closeCover).coverOpacity = s.coverOpacity
    ∧ (graphene_wm_close_dialog scene s closeCover).wm = graphene_wm_end_modal scene s.wm
    ∧ (graphene_wm_close_dialog scene s closeCover).coverOpacityTarget
        = (if closeCover = true ∧ s.coverOpacity ≠ 0 then 0 else s.coverOpacityTarget)
    ∧ (OverlayCall.hide_cover ∈ (graphene_wm_close_dialog scene s closeCover).calls
        ↔ OverlayCall.hide_cover ∈ s.calls) := by
  unfold graphene_wm_close_dialog
  cases hd : s.dialog <;> cases closeCover <;> by_cases ho : s.coverOpacity = 0 <;>
    simp [setDialogActor, hd, ho]

/-- C21, as stated, fails in the state left by `graphene_wm_start` itself:
the cover group was shown and there is no current dialog. -/
theorem cover_shown_without_dialog_at_start :
    (overlayStart panelScene wmPanel).coverVisible = true
    ∧ (overlayStart panelScene wmPanel).dialog = none
    ∧ (overlayRun (overlayStart panelScene wmPanel)
        [(panelScene, OverlayEvent.show_dialog none)]).coverVisible = true
    ∧ (overlayRun (overlayStart panelScene wmPanel)
        [(panelScene, OverlayEvent.show_dialog none)]).dialog = none := by
  decide

theorem coverInv_step (scene : Scene) (s : GrapheneWMOverlay) (ev : OverlayEvent)
    (h : CoverInv s) : CoverInv (overlayStep scene s ev) := by
  obtain ⟨h1, h2⟩ := h
  cases ev with
  | show_dialog dialog =>
    cases dialog with
    | none =>
      obtain ⟨hd, hv, _, _, _, hc⟩ := close_dialog_fields scene s true
      have he : overlayStep scene s (OverlayEvent.show_dialog none)
          = graphene_wm_close_dialog scene s true := by
        simp [overlayStep, graphene_wm_show_dialog]
      rw [he]
      unfold CoverInv
      rw [hd, hv, hc]
      exact ⟨h1, h2⟩
    | some content =>
      have hv : (overlayStep scene s (OverlayEvent.show_dialog (some content))).coverVisible
          = true := by
        simp [overlayStep, graphene_wm_show_dialog, setDialogActor]
      have hd : (overlayStep scene s (OverlayEvent.show_dialog (some content))).dialog
          ≠ none := by
        simp [overlayStep, graphene_wm_show_dialog, setDialogActor]
      exact ⟨fun _ => hv, fun _ => ⟨fun _ => hd, fun _ => hv⟩⟩
  | transitions_completed dialog =>
    show CoverInv (dialog_transitions_completed s dialog)
    rw [dialog_transitions_completed_eq]
    split
    · unfold close_dialog_complete
      by_cases hcur : s.dialog = some dialog
      · simp [setDialogActor, hcur, CoverInv]
      · simp only [setDialogActor, hcur, if_false]
        unfold CoverInv
        simp only [List.append_assoc, List.mem_append, List.mem_cons, List.mem_singleton,
          List.not_mem_nil, or_false]
        refine ⟨h1, ?_⟩
        intro hmem
        apply h2
        rcases hmem with hmem | hmem | hmem
        · exact hmem
        · cases hmem
        · cases hmem
    · exact ⟨h1, h2⟩

theorem coverInv_run (evs : List (Scene × OverlayEvent)) :
    ∀ s : GrapheneWMOverlay, CoverInv s → CoverInv (overlayRun s evs) := by
  induction evs with
  | nil => intro s h; exact h
  | cons e rest ih =>
    intro s h
    obtain ⟨scene, ev⟩ := e
    exact ih _ (coverInv_step scene s ev h)

/-- C21, amended: in every state reached from the state left by
`graphene_wm_start` through `graphene_wm_show_dialog` calls (with content or
with none) and emissions of "transitions_completed" on dialog actors, the
cover group is shown whenever the current-dialog field is non-null; and from
the first time the completion of a close has hidden the cover, the cover is
shown if and only if the current-dialog field is non-null. -/
theorem cover_shown_with_dialog (scene : Scene) (wm : GrapheneWM)
    (evs : List (Scene × OverlayEvent)) :
    ((overlayRun (overlayStart scene wm) evs).dialog ≠ none →
        (overlayRun (overlayStart scene wm) evs).coverVisible = true)
    ∧ (OverlayCall.hide_cover ∈ (overlayRun (overlayStart scene wm) evs).calls →
        ((overlayRun (overlayStart scene wm) evs).coverVisible = true
          ↔ (overlayRun (overlayStart scene wm) evs).dialog ≠ none)) := by
  apply coverInv_run
  unfold CoverInv overlayStart
  simp

theorem cover_shown_with_dialog_witness :
    OverlayCall.hide_cover ∈ (overlayRun (overlayStart panelScene wmPanel)
        [(panelScene, OverlayEvent.show_dialog (some 7)),
          (panelScene, OverlayEvent.show_dialog none),
          (panelScene, OverlayEvent.transitions_completed 0)]).calls
    ∧ ((overlayRun (overlayStart panelScene wmPanel)
        [(panelScene, OverlayEvent.show_dialog (some 7)),
          (panelScene, OverlayEvent.show_dialog none),
          (panelScene, OverlayEvent.transitions_completed 0)]).coverVisible = true
      ↔ (overlayRun (overlayStart panelScene wmPanel)
        [(panelScene, OverlayEvent.show_dialog (some 7)),
          (panelScene, OverlayEvent.show_dialog none),
          (panelScene, OverlayEvent.transitions_completed 0)]).dialog ≠ none) :=
  ⟨by decide, (cover_shown_with_dialog panelScene wmPanel _).2 (by decide)⟩

/-- C22: every call of `graphene_wm_close_dialog (closeCover)` applies
`graphene_wm_end_modal` once to the modal state, with or without a current
dialog; it sets the target opacity of the cover to 0 if and only if
`closeCover` is true and the current opacity of the cover is not 0, and
leaves the target as it was otherwise; the current opacity and the visibility
of the cover are unchanged. -/
theorem close_dialog_end_modal_and_cover (scene : Scene) (s : GrapheneWMOverlay)
    (closeCover : Bool) :
    (graphene_wm_close_dialog scene s closeCover).wm = graphene_wm_end_modal scene s.wm
    ∧ (closeCover = true ∧ s.coverOpacity ≠ 0 →
        (graphene_wm_close_dialog scene s closeCover).coverOpacityTarget = 0)
    ∧ (¬ (closeCover = true ∧ s.coverOpacity ≠ 0) →
        (graphene_wm_close_dialog scene s closeCover).coverOpacityTarget = s.coverOpacityTarget)
    ∧ (graphene_wm_close_dialog scene s closeCover).coverOpacity = s.coverOpacity
    ∧ (graphene_wm_close_dialog scene s closeCover).coverVisible = s.coverVisible := by
  obtain ⟨_, hv, ho, hwm, ht, _⟩ := close_dialog_fields scene s closeCover
  refine ⟨hwm, ?_, ?_, ho, hv⟩
  · intro h
    rw [ht, if_pos h]
  · intro h
    rw [ht, if_neg h]

theorem close_dialog_end_modal_and_cover_witness :
    ((true = true ∧ overlayWithDialog.coverOpacity ≠ 0) →
      (graphene_wm_close_dialog panelScene overlayWithDialog true).coverOpacityTarget = 0)
    ∧ overlayWithDialog.coverOpacity = 255
    ∧ overlayWithDialog.wm.modalCount = 2
    ∧ (graphene_wm_close_dialog panelScene overlayWithDialog true).wm.modalCount = 1 :=
  ⟨(close_dialog_end_modal_and_cover panelScene overlayWithDialog true).2.1,
    by decide, by decide, by decide⟩

theorem show_dialog_none_eq (scene : Scene) (s : GrapheneWMOverlay) :
    graphene_wm_show_dialog scene s none = graphene_wm_close_dialog scene s true := by
  simp [graphene_wm_show_dialog]

/-- C28, as stated, fails: after start and one dialog shown the modal depth
is 2, one of which the dialog accounts for; two calls of
`graphene_wm_show_dialog (none)` before the close transition completes (the
dialog is still the current one, with two close handlers) lower the depth to
0, that is by two. -/
theorem close_twice_lowers_depth_twice :
    overlayWithDialog.wm.modalCount = 2
    ∧ overlayWithDialog.dialog = some 0
    ∧ (overlayRun overlayWithDialog (closeRequests [panelScene, panelScene])).dialog = some 0
    ∧ ((overlayRun overlayWithDialog (closeRequests [panelScene, panelScene])).actors
        0).closeHandlers = 2
    ∧ (overlayRun overlayWithDialog (closeRequests [panelScene])).wm.modalCount = 1
    ∧ (overlayRun overlayWithDialog (closeRequests [panelScene, panelScene])).wm.modalCount
        = 0 := by
  decide

/-- C28, amended: for every modal depth d >= 1 with a current dialog, each
call of `graphene_wm_show_dialog (none)` made before the close transition
completes lowers the modal depth by one, not below 0: k calls leave the depth
at max(d - k, 0), so exactly one call lowers it by exactly one; the dialog
stays the current one until its close completes. -/
theorem close_requests_lower_depth (s : GrapheneWMOverlay) (scenes : List Scene) (d : Int)
    (hd : s.wm.modalCount = d) (hpos : 1 ≤ d) :
    (overlayRun s (closeRequests scenes)).wm.modalCount = max (d - scenes.length) 0
    ∧ (overlayRun s (closeRequests scenes)).dialog = s.dialog
    ∧ (scenes.length = 1 → (overlayRun s (closeRequests scenes)).wm.modalCount = d - 1) := by
  have key : ∀ (l : List Scene) (t : GrapheneWMOverlay), 0 ≤ t.wm.modalCount →
      (overlayRun t (closeRequests l)).wm.modalCount = max (t.wm.modalCount - l.length) 0
      ∧ (overlayRun t (closeRequests l)).dialog = t.dialog := by
    intro l
    induction l with
    | nil =>
      intro t ht
      simp only [closeRequests, List.map_nil, overlayRun, List.length_nil, Nat.cast_zero,
        sub_zero]
      exact ⟨(max_eq_left ht).symm, trivial⟩
    | cons scene rest ih =>
      intro t ht
      obtain ⟨hdlg, _, _, hwm, _, _⟩ := close_dialog_fields scene t true
      have hstep : overlayRun t (closeRequests (scene :: rest))
          = overlayRun (graphene_wm_close_dialog scene t true) (closeRequests rest) := by
        simp only [closeRequests, List.map_cons, overlayRun, overlayStep, show_dialog_none_eq]
      have hcount : (graphene_wm_close_dialog scene t true).wm.modalCount
          = (if 0 < t.wm.modalCount - 1 then t.wm.modalCount - 1 else 0) := by
        rw [hwm, end_modal_modalCount]
      have hnonneg : 0 ≤ (graphene_wm_close_dialog scene t true).wm.modalCount := by
        rw [hcount]; split <;> omega
      obtain ⟨ih1, ih2⟩ := ih (graphene_wm_close_dialog scene t true) hnonneg
      rw [hstep, ih1, ih2, hdlg, hcount]
      refine ⟨?_, rfl⟩
      simp only [List.length_cons, Nat.cast_add, Nat.cast_one]
      split <;> omega
  obtain ⟨h1, h2⟩ := key scenes s (by omega)
  rw [hd] at h1
  refine ⟨h1, h2, ?_⟩
  intro hlen
  rw [h1, hlen]
  simp only [Nat.cast_one]
  omega

theorem close_requests_lower_depth_witness :
    overlayWithDialog.wm.modalCount = 2 ∧ (1 : Int) ≤ 2
    ∧ (overlayRun overlayWithDialog (closeRequests [panelScene])).wm.modalCount
        = max (2 - ([panelScene].length : Int)) 0 :=
  ⟨by decide, by decide,
    (close_requests_lower_depth overlayWithDialog [panelScene] 2 (by decide) (by decide)).1⟩

/-! ## Theorems: scene assembly -/

theorem center_actor_on_primary_idem (screen : MetaScreen) (actor : DialogGeometry) :
    center_actor_on_primary screen (center_actor_on_primary screen actor)
      = center_actor_on_primary screen actor := by
  rfl

theorem monitor_geometry_of_valid (screen : MetaScreen) (i : Nat) (r1 r2 : MetaRectangle)
    (h : i < screen.monitors.length) :
    meta_screen_get_monitor_geometry screen i r1
      = meta_screen_get_monitor_geometry screen i r2 := by
  unfold meta_screen_get_monitor_geometry
  rw [List.getElem?_eq_getElem h]
  rfl

/-- Idempotence of `on_monitors_changed` where the local `primary` is
written: for every screen whose primary index is one of its monitors (any
number of monitors, any geometry) and every dialog size, running it a second
time gives the layout the first run gave: the same cover rectangles,
percent-bar geometry, dialog position, panel geometry and notification-box
geometry. -/
theorem on_monitors_changed_idempotent (screen : MetaScreen) (stack1 stack2 : MetaRectangle)
    (self : SceneLayout) (hprimary : screen.primary < screen.monitors.length) :
    on_monitors_changed screen stack2 (on_monitors_changed screen stack1 self)
      = on_monitors_changed screen stack1 self := by
  have hgeo := monitor_geometry_of_valid screen screen.primary stack2 stack1 hprimary
  unfold on_monitors_changed
  simp only [hgeo]
  cases hd : self.dialog with
  | none => rfl
  | some dialog =>
    simp only [center_actor_on_primary_idem]

theorem on_monitors_changed_idempotent_witness :
    twoMonitors.primary < twoMonitors.monitors.length
    ∧ (on_monitors_changed twoMonitors (meta_rect 0 0 0 0) layoutWithDialog).percentBar
        = meta_rect 2400 30 320 20
    ∧ (on_monitors_changed twoMonitors (meta_rect 0 0 0 0) layoutWithDialog).covers
        = [meta_rect 0 0 1920 1080, meta_rect 1920 0 1280 1024]
    ∧ on_monitors_changed twoMonitors (meta_rect 5 5 5 5)
          (on_monitors_changed twoMonitors (meta_rect 0 0 0 0) layoutWithDialog)
        = on_monitors_changed twoMonitors (meta_rect 0 0 0 0) layoutWithDialog :=
  ⟨by decide, by decide, by decide,
    on_monitors_changed_idempotent twoMonitors (meta_rect 0 0 0 0) (meta_rect 5 5 5 5)
      layoutWithDialog (by decide)⟩

/-- C23, evaluated on the code: `on_monitors_changed` runs twice in a row on
a screen with no monitor.  `meta_screen_get_monitor_geometry` does not write
the local `primary`, which has no initial value, so each run sets percent
bar, panel and notification box from what the stack holds: with (0, 0, 0, 0)
there at the first run and (7, 7, 7, 7) at the second, the second run gives
another layout than the first.  The covers, and the dialog position, which
`center_actor_on_primary` takes from a rectangle set to (0, 0, 0, 0), are the
same after both runs. -/
theorem on_monitors_changed_no_monitor_reads_stack :
    (on_monitors_changed noMonitors (meta_rect 0 0 0 0) layoutWithDialog).panel
        = meta_rect 0 0 0 0
    ∧ (on_monitors_changed noMonitors (meta_rect 0 0 0 0) layoutWithDialog).notificationBox
        = meta_rect 0 0 0 0
    ∧ (on_monitors_changed noMonitors (meta_rect 0 0 0 0) layoutWithDialog).percentBar
        = meta_rect 0 30 0 20
    ∧ (on_monitors_changed noMonitors (meta_rect 7 7 7 7)
        (on_monitors_changed noMonitors (meta_rect 0 0 0 0) layoutWithDialog)).panel
        = meta_rect 7 7 7 7
    ∧ (on_monitors_changed noMonitors (meta_rect 7 7 7 7)
        (on_monitors_changed noMonitors (meta_rect 0 0 0 0) layoutWithDialog)).notificationBox
        = meta_rect 7 7 7 7
    ∧ (on_monitors_changed noMonitors (meta_rect 7 7 7 7)
        (on_monitors_changed noMonitors (meta_rect 0 0 0 0) layoutWithDialog)).percentBar
        = meta_rect 10 37 1 20
    ∧ (on_monitors_changed noMonitors (meta_rect 7 7 7 7)
        (on_monitors_changed noMonitors (meta_rect 0 0 0 0) layoutWithDialog)).covers
        = (on_monitors_changed noMonitors (meta_rect 0 0 0 0) layoutWithDialog).covers
    ∧ (on_monitors_changed noMonitors (meta_rect 7 7 7 7)
        (on_monitors_changed noMonitors (meta_rect 0 0 0 0) layoutWithDialog)).dialog
        = (on_monitors_changed noMonitors (meta_rect 0 0 0 0) layoutWithDialog).dialog
    ∧ on_monitors_changed noMonitors (meta_rect 7 7 7 7)
        (on_monitors_changed noMonitors (meta_rect 0 0 0 0) layoutWithDialog)
        ≠ on_monitors_changed noMonitors (meta_rect 0 0 0 0) layoutWithDialog := by
  refine ⟨by decide, by decide, by decide, by decide, by decide, by decide, by decide, ?_, ?_⟩
  · have h := center_actor_on_primary_idem noMonitors
      { x := 0, y := 0, width := 400, height := 300 }
    simp only [on_monitors_changed, layoutWithDialog, h]
  · intro h
    exact absurd (congrArg SceneLayout.panel h) (by decide)

/-! ## Theorems: the window wrapper -/

theorem window_update_icon (strdown : String → String) (window : MetaWindow)
    (cwindow : GrapheneWindow) :
    (graphene_window_update strdown window cwindow).icon
      = (match window.wm_class with
          | some c => some (strdown c)
          | none =>
            match window.wm_class_instance with
            | some i => some (strdown i)
            | none => none) := by
  unfold graphene_window_update
  cases hc : window.wm_class <;> cases hi : window.wm_class_instance <;>
    cases window.minimized <;> cases window.demands_attention <;>
    cases window.appears_focused <;> cases window.skip_taskbar <;> simp

/-- C24: `graphene_window_update` sets the icon key to the lower-cased window
class when the window class is present, otherwise to the lower-cased instance
class when that is present, and to the null key when both are absent; the
function returns a wrapper for every input. -/
theorem window_update_icon_key (strdown : String → String) (window : MetaWindow)
    (cwindow : GrapheneWindow) :
    (∀ c, window.wm_class = some c →
        (graphene_window_update strdown window cwindow).icon = some (strdown c))
    ∧ (∀ i, window.wm_class = none → window.wm_class_instance = some i →
        (graphene_window_update strdown window cwindow).icon = some (strdown i))
    ∧ (window.wm_class = none → window.wm_class_instance = none →
        (graphene_window_update strdown window cwindow).icon = none) := by
  have h := window_update_icon strdown window cwindow
  refine ⟨?_, ?_, ?_⟩
  · intro c hc
    rw [h, hc]
  · intro i hc hi
    rw [h, hc, hi]
  · intro hc hi
    rw [h, hc, hi]

theorem window_update_icon_key_witness :
    (filesWindow.wm_class = none → filesWindow.wm_class_instance = some "Nautilus" →
      (graphene_window_update String.toLower filesWindow newGrapheneWindow).icon
        = some (String.toLower "Nautilus")) :=
  (window_update_icon_key String.toLower filesWindow newGrapheneWindow).2.1 "Nautilus"

/-! ## Theorems: unsupported Notify parameters -/

theorem set_timeout_fields (n : GrapheneNotification) (t : Int) :
    (graphene_notification_set_timeout n t).urgency = n.urgency
    ∧ (graphene_notification_set_timeout n t).icon = n.icon
    ∧ (graphene_notification_set_timeout n t).text = n.text
    ∧ (graphene_notification_set_timeout n t).timeout = (if t < 0 then 5000 else t) := by
  unfold graphene_notification_set_timeout graphene_notification_stop_timeout
  simp only [NOTIFICATION_DEFAULT_SHOW_TIME]
  by_cases h1 : t < 0
  · simp [h1]
  · by_cases h2 : 0 < t
    · simp [h1, h2]
    · simp [h1, h2]

/-- C25: two Notify calls made in the same box state with the same app_icon,
summary, body and expire_timeout give the same box and the same returned id,
whatever app_name, replaces_id, actions and hints are; the call appends one
new notification (urgency NORMAL, the given icon, the text made of summary
and body, the timeout of `set_timeout`) after the children that
`remove_server_fail_notification` leaves, which are all the children when no
failure notification id is stored, so no notification is replaced or removed
on account of replaces_id; and the returned id is the id of the new
notification. -/
theorem notify_ignores_unsupported (self : GrapheneNotificationBox)
    (app_name1 app_name2 : String) (replaces_id1 replaces_id2 : Nat)
    (app_icon summary body : String) (actions1 actions2 : List String)
    (hints1 hints2 : List (String × String)) (expire_timeout : Int) :
    on_dbus_call_notify self app_name1 replaces_id1 app_icon summary body actions1 hints1
        expire_timeout
      = on_dbus_call_notify self app_name2 replaces_id2 app_icon summary body actions2 hints2
        expire_timeout
    ∧ ∃ n : GrapheneNotification,
        (on_dbus_call_notify self app_name1 replaces_id1 app_icon summary body actions1 hints1
            expire_timeout).1.children
          = (remove_server_fail_notification self).children ++ [n]
        ∧ (self.failNotificationId = 0 →
            (on_dbus_call_notify self app_name1 replaces_id1 app_icon summary body actions1
                hints1 expire_timeout).1.children = self.children ++ [n])
        ∧ n.id = (on_dbus_call_notify self app_name1 replaces_id1 app_icon summary body
            actions1 hints1 expire_timeout).2
        ∧ n.id = (self.nextNotificationId + 1) % UINT32_SIZE
        ∧ n.urgency = NOTIFICATION_URGENCY_NORMAL
        ∧ n.icon = app_icon
        ∧ n.text = "<b>" ++ summary ++ "</b>  " ++ body
        ∧ n.timeout = (if expire_timeout < 0 then 5000 else expire_timeout) := by
  refine ⟨rfl, _, rfl, ?_, rfl, ?_, ?_, ?_, ?_, ?_⟩
  · intro h0
    unfold on_dbus_call_notify
    simp [remove_server_fail_of_zero self h0, add_notification]
  · rw [set_timeout_id]
    simp [remove_server_fail_nextId]
  · rw [(set_timeout_fields _ _).1]
  · rw [(set_timeout_fields _ _).2.1]
  · rw [(set_timeout_fields _ _).2.2.1]
  · rw [(set_timeout_fields _ _).2.2.2]

theorem notify_ignores_unsupported_witness :
    on_dbus_call_notify boxNameLost "Mail" 2 "mail-symbolic" "New message"
        "You have 1 new email" ["default", "Open"] [("urgency", "2")] (-1)
      = on_dbus_call_notify boxNameLost "" 0 "mail-symbolic" "New message"
        "You have 1 new email" [] [] (-1)
    ∧ (on_dbus_call_notify boxNameLost "Mail" 2 "mail-symbolic" "New message"
        "You have 1 new email" ["default", "Open"] [("urgency", "2")] (-1)).1.children.map
        (fun n => n.id) = [2, 3]
    ∧ (on_dbus_call_notify boxNameLost "Mail" 2 "mail-symbolic" "New message"
        "You have 1 new email" ["default", "Open"] [("urgency", "2")] (-1)).2 = 3 :=
  ⟨(notify_ignores_unsupported boxNameLost "Mail" "" 2 0 "mail-symbolic" "New message"
      "You have 1 new email" ["default", "Open"] [] [("urgency", "2")] [] (-1)).1,
    by decide, by decide⟩

/-! ## Theorems: the boxes of the notifications -/

theorem roundToEven_of_multiple (e n : Nat) (h : n % 2 ^ e = 0) : roundToEven e n = n := by
  unfold roundToEven
  have hpos : 0 < 2 ^ e := Nat.two_pow_pos e
  simp only [h, Nat.mul_zero, hpos, if_true]
  exact Nat.div_mul_cancel (Nat.dvd_of_mod_eq_zero h)

theorem excessBits_le (fuel : Nat) :
    ∀ (k n : Nat), n < 2 ^ (24 + k) → excessBits fuel n ≤ k := by
  induction fuel with
  | zero => intro k n _; exact Nat.zero_le k
  | succ fuel ih =>
    intro k n hn
    unfold excessBits
    split
    · exact Nat.zero_le k
    · rename_i hge
      cases k with
      | zero => exact absurd hn hge
      | succ k =>
        have hhalf : n / 2 < 2 ^ (24 + k) := by
          have : 2 ^ (24 + (k + 1)) = 2 * 2 ^ (24 + k) := by
            rw [← Nat.add_assoc, Nat.pow_succ, Nat.mul_comm]
          omega
        have := ih k (n / 2) hhalf
        omega

/-- A number below `2 ^ (24 + k)` that is a multiple of `2 ^ k` is a `gfloat`. -/
theorem uintToGfloat_exact (k n : Nat) (hlt : n < 2 ^ (24 + k)) (hmul : n % 2 ^ k = 0) :
    uintToGfloat n = n := by
  unfold uintToGfloat
  apply roundToEven_of_multiple
  have hle := excessBits_le 64 k n hlt
  have hdvd : 2 ^ excessBits 64 n ∣ 2 ^ k := Nat.pow_dvd_pow 2 hle
  exact Nat.mod_eq_zero_of_dvd (Nat.dvd_trans hdvd (Nat.dvd_of_mod_eq_zero hmul))

theorem allocationBox_exact (i : Nat) (h : i ≤ 838860) :
    allocationBox i
      = { x1 := 20, y1 := 20 + 80 * (i : Int), x2 := 340, y2 := 20 + 80 * (i : Int) + 60 } := by
  have hx1 : uintToGfloat NOTIFICATION_SPACING = 20 := by decide
  have hx2 : uintToGfloat (20 + NOTIFICATION_WIDTH) = 340 := by decide
  have hy1 : uintToGfloat
      ((NOTIFICATION_SPACING + i * (NOTIFICATION_HEIGHT + NOTIFICATION_SPACING)) % UINT32_SIZE)
        = 20 + 80 * i := by
    have hmod : (NOTIFICATION_SPACING + i * (NOTIFICATION_HEIGHT + NOTIFICATION_SPACING))
        % UINT32_SIZE = 20 + 80 * i := by
      unfold NOTIFICATION_SPACING NOTIFICATION_HEIGHT UINT32_SIZE
      omega
    rw [hmod]
    exact uintToGfloat_exact 2 (20 + 80 * i) (by norm_num; omega) (by norm_num; omega)
  have hy2 : uintToGfloat (20 + 80 * i + NOTIFICATION_HEIGHT) = 20 + 80 * i + 60 := by
    unfold NOTIFICATION_HEIGHT
    exact uintToGfloat_exact 3 (20 + 80 * i + 60) (by norm_num; omega) (by norm_num; omega)
  unfold allocationBox
  simp only [hx1, hx2, hy1, hy2]
  push_cast
  rfl

theorem allocateLoop_getElem (l : List GrapheneNotification) :
    ∀ (start j : Nat), j < l.length → start + j < UINT32_SIZE →
      ((allocateLoop start l)[j]?).map Prod.snd = some (allocationBox (start + j)) := by
  induction l with
  | nil => intro start j hj _; simp at hj
  | cons n rest ih =>
    intro start j hj hlt
    cases j with
    | zero => simp [allocateLoop]
    | succ k =>
      have hk : k < rest.length := by simpa using hj
      have hstart : (start + 1) % UINT32_SIZE = start + 1 := Nat.mod_eq_of_lt (by omega)
      have := ih (start + 1) k hk (by omega)
      simp only [allocateLoop, List.getElem?_cons_succ, hstart]
      rw [this]
      congr 2
      omega

theorem g_list_sort_length (children : List GrapheneNotification) :
    (g_list_sort children notification_compare_func).length = children.length :=
  (g_list_sort_real_spec notification_compare_func (fun _ _ => True)
    (fun _ _ _ _ _ => trivial) (fun _ _ _ => trivial) (fun _ _ _ => trivial)
    children.length children (Nat.le_refl _)).1.length_eq

theorem allocate_box_at (self : GrapheneNotificationBox) (i : Nat)
    (hi : i < self.children.length) (hlt : i < UINT32_SIZE) :
    ((graphene_notification_box_allocate self)[i]?).map Prod.snd = some (allocationBox i) := by
  unfold graphene_notification_box_allocate
  have := allocateLoop_getElem (g_list_sort self.children notification_compare_func) 0 i
    (by rw [g_list_sort_length]; exact hi) (by omega)
  simpa using this

/-- C27, as stated, fails at position 838861 of a box that displays 838862
notifications: 20 + 80 * 838861 = 67108900 is not a `gfloat` (between 2^26 and
2^27 only multiples of 8 are), so y1 becomes 67108896, and y1 + 60 becomes
67108960: the box is 64 high, not 60. -/
theorem box_at_838861_is_rounded :
    crowdedBox.children.length = 838862
    ∧ ((graphene_notification_box_allocate crowdedBox)[838861]?).map Prod.snd
        = some { x1 := 20, y1 := 67108896, x2 := 340, y2 := 67108960 }
    ∧ (20 + 80 * 838861 : Int) = 67108900 := by
  have hlen : crowdedBox.children.length = 838862 := by
    unfold crowdedBox
    simp only [List.length_map, List.length_range]
  refine ⟨hlen, ?_, by decide⟩
  rw [allocate_box_at crowdedBox 838861 (by rw [hlen]; decide) (by decide)]
  decide

/-- C27, amended: for the positions i up to 838860 (where 20 + 80 * i and
the sums with 60 are `gfloat` values), the notification at position i of the
stacking order is allocated, before dp scaling, the box x1 = 20,
y1 = 20 + 80 * i, x2 = 340, y2 = y1 + 60, so 320 by 60; the box of a later
position j in that range starts at or below the end of the box of i, and the
box of position i + 1 starts 20 below it. -/
theorem notification_box_at_position (self : GrapheneNotificationBox) (i j : Nat)
    (hi : i < self.children.length) (hj : j < self.children.length)
    (hibound : i ≤ 838860) (hjbound : j ≤ 838860) :
    ((graphene_notification_box_allocate self)[i]?).map Prod.snd
        = some { x1 := 20, y1 := 20 + 80 * (i : Int), x2 := 340, y2 := 20 + 80 * (i : Int) + 60 }
    ∧ (allocationBox i).x2 - (allocationBox i).x1 = 320
    ∧ (allocationBox i).y2 - (allocationBox i).y1 = 60
    ∧ (i < j → (allocationBox i).y2 ≤ (allocationBox j).y1)
    ∧ (j = i + 1 → (allocationBox j).y1 - (allocationBox i).y2 = 20) := by
  have hbi := allocationBox_exact i hibound
  have hbj := allocationBox_exact j hjbound
  refine ⟨?_, ?_, ?_, ?_, ?_⟩
  · rw [allocate_box_at self i hi (by unfold UINT32_SIZE; omega), hbi]
  · rw [hbi]; simp
  · rw [hbi]; simp
  · intro hij
    rw [hbi, hbj]
    simp only []
    omega
  · intro hij
    rw [hbi, hbj]
    simp only []
    omega

theorem notification_box_at_position_witness :
    (0 < boxNameLost.children.length)
    ∧ ((graphene_notification_box_allocate boxNameLost)[0]?).map Prod.snd
        = some { x1 := 20, y1 := 20 + 80 * ((0 : Nat) : Int), x2 := 340, y2 := 20 + 80 * ((0 : Nat) : Int) + 60 } :=
  ⟨by decide,
    (notification_box_at_position boxNameLost 0 0 (by decide) (by decide) (by decide)
      (by decide)).1⟩

/-! ## Theorems: the allocation of the dialog -/

/-- Every path of `graphene_dialog_allocate` ends with the allocation of the
parent class, and what comes before are allocations of children. -/
theorem dialog_allocate_shape (priv : GrapheneDialogPrivate) (dp wPad hPad bbHeight : ℚ)
    (messageHeight : ℚ → ℚ) (box : FloatBox) :
    ∃ children : List AllocateCall,
      graphene_dialog_allocate priv dp wPad hPad bbHeight messageHeight box
        = children ++ [AllocateCall.parent_allocate box]
      ∧ ∀ c ∈ children, ∃ child b, c = AllocateCall.clutter_actor_allocate child b := by
  obtain ⟨m, c, i⟩ := priv
  unfold graphene_dialog_allocate
  cases m <;> cases c <;> cases i <;>
    simp only [Bool.false_eq_true, if_false, if_true] <;>
    split_ifs <;> first | exact ⟨[], rfl, by simp⟩ | exact ⟨_, rfl, by simp⟩

theorem padBox_invalid (wPad hPad : ℚ) (box : FloatBox)
    (h : box.x2 - box.x1 - wPad - wPad ≤ 0 ∨ box.y2 - box.y1 - hPad - hPad ≤ 0) :
    clutter_actor_box_valid
      { x1 := wPad, y1 := hPad, x2 := (box.x2 - box.x1) - wPad, y2 := (box.y2 - box.y1) - hPad }
      = false := by
  unfold clutter_actor_box_valid
  simp only [Bool.and_eq_false_iff, decide_eq_false_iff_not, not_lt, gt_iff_lt]
  exact h

/-- C26: for every input box, `graphene_dialog_allocate` calls the allocate
of the parent class exactly once, with the given box and as its last call;
when the padded interior of the box (the box shrunk by the width and height
padding on each side) has non-positive width or height, that is its only
call: no child is allocated. -/
theorem dialog_allocate_parent_once (priv : GrapheneDialogPrivate) (dp wPad hPad bbHeight : ℚ)
    (messageHeight : ℚ → ℚ) (box : FloatBox) :
    (graphene_dialog_allocate priv dp wPad hPad bbHeight messageHeight box).count
        (AllocateCall.parent_allocate box) = 1
    ∧ (∀ b, AllocateCall.parent_allocate b
          ∈ graphene_dialog_allocate priv dp wPad hPad bbHeight messageHeight box → b = box)
    ∧ (graphene_dialog_allocate priv dp wPad hPad bbHeight messageHeight box).getLast?
        = some (AllocateCall.parent_allocate box)
    ∧ (box.x2 - box.x1 - wPad - wPad ≤ 0 ∨ box.y2 - box.y1 - hPad - hPad ≤ 0 →
        graphene_dialog_allocate priv dp wPad hPad bbHeight messageHeight box
          = [AllocateCall.parent_allocate box]) := by
  obtain ⟨children, hcalls, hchildren⟩ :=
    dialog_allocate_shape priv dp wPad hPad bbHeight messageHeight box
  have hnot : ∀ b, AllocateCall.parent_allocate b ∉ children := by
    intro b hb
    obtain ⟨child, b', hc⟩ := hchildren _ hb
    cases hc
  refine ⟨?_, ?_, ?_, ?_⟩
  · rw [hcalls, List.count_append, List.count_eq_zero.mpr (hnot box)]
    simp
  · intro b hb
    rw [hcalls, List.mem_append] at hb
    rcases hb with hb | hb
    · exact absurd hb (hnot b)
    · simpa using hb
  · rw [hcalls]
    simp
  · intro h
    unfold graphene_dialog_allocate
    simp only [padBox_invalid wPad hPad box h, Bool.not_false, if_true]

theorem dialog_allocate_parent_once_witness :
    (({ x1 := 0, y1 := 0, x2 := 15, y2 := 300 } : FloatBox).x2
          - ({ x1 := 0, y1 := 0, x2 := 15, y2 := 300 } : FloatBox).x1 - 10 - 10 ≤ 0
        ∨ ({ x1 := 0, y1 := 0, x2 := 15, y2 := 300 } : FloatBox).y2
          - ({ x1 := 0, y1 := 0, x2 := 15, y2 := 300 } : FloatBox).y1 - 10 - 10 ≤ 0 →
      graphene_dialog_allocate contentOnlyDialog 1 10 10 40 (fun _ => 0)
          { x1 := 0, y1 := 0, x2 := 15, y2 := 300 }
        = [AllocateCall.parent_allocate { x1 := 0, y1 := 0, x2 := 15, y2 := 300 }]) :=
  (dialog_allocate_parent_once contentOnlyDialog 1 10 10 40 (fun _ => 0)
    { x1 := 0, y1 := 0, x2 := 15, y2 := 300 }).2.2.2

theorem message_box_invalid (x1 x2 a y : ℚ) :
    clutter_actor_box_valid { x1 := x1, y1 := y, x2 := x2, y2 := min a (y + 0) } = false := by
  unfold clutter_actor_box_valid
  simp

/-- The defect behind C29 for every input: without a message the box
computed for the message has no height, `_clutter_actor_box_valid` rejects it
and the function leaves before it reaches the content. -/
theorem dialog_allocate_no_content_without_message (priv : GrapheneDialogPrivate)
    (dp wPad hPad bbHeight : ℚ) (messageHeight : ℚ → ℚ) (box : FloatBox)
    (hmessage : priv.message = false) (b : FloatBox) :
    AllocateCall.clutter_actor_allocate DialogChild.content b
      ∉ graphene_dialog_allocate priv dp wPad hPad bbHeight messageHeight box := by
  obtain ⟨m, c, i⟩ := priv
  simp only at hmessage
  subst hmessage
  unfold graphene_dialog_allocate
  cases c <;> cases i <;>
    simp only [Bool.false_eq_true, if_false, if_true, message_box_invalid, Bool.not_false] <;>
    split_ifs <;> simp

/-- C29, evaluated on the code: a dialog with a content actor, no message and
no icon is allocated the box 400 by 300 with paddings of 10 and a button row
40 high.  The padded interior minus the button row is 380 by 240, yet the
only child allocated is the button box: the content actor gets no box. -/
theorem content_only_dialog_gets_no_content_box :
    graphene_dialog_allocate contentOnlyDialog 1 10 10 40 (fun _ => 0) dialogBox
      = [AllocateCall.clutter_actor_allocate DialogChild.buttonBox
          { x1 := 10, y1 := 250, x2 := 390, y2 := 290 },
        AllocateCall.parent_allocate dialogBox] := by
  norm_num [graphene_dialog_allocate, contentOnlyDialog, dialogBox, clutter_actor_box_valid,
    ICON_SIZE]

/-! ## Theorems: the scroll box -/

/-- C30, evaluated on the code: a scroll box 200 wide and 100 high, with
natural size 500 by 100, is not scrolled, and the point (150, 50) is in view
(0 <= 150 <= 200 and 0 <= 50 <= 100).  `scroll_to` with exact = false tests
the x coordinate against the height (150 > 0 + 100), keeps x = 150 and
scrolls to (150, 0). -/
theorem scroll_to_scrolls_to_point_in_view :
    scrollBoxAtOrigin.scroll = { x := 0, y := 0 }
    ∧ ((0 : ℚ) ≤ 150 ∧ (150 : ℚ) ≤ 0 + 200 ∧ (0 : ℚ) ≤ 50 ∧ (50 : ℚ) ≤ 0 + 100)
    ∧ (scroll_to scrollBoxAtOrigin 200 100 500 100 { x := 150, y := 50 } false).scroll
        = { x := 150, y := 0 }
    ∧ (scroll_to scrollBoxAtOrigin 200 100 500 100 { x := 150, y := 50 } false).childTransform
        = { x := -150, y := 0 } := by
  norm_num [scroll_to, scrollBoxAtOrigin]

/-- What the code does keep of C30: when both coordinates of the point are
within `height` of the scroll offset, `scroll_to` with exact = false leaves
the scroll box as it is. -/
theorem scroll_to_keeps_offset_within_height (self : CmkScrollBox)
    (width height natW natH : ℚ) (point : ClutterPoint)
    (hx : self.scroll.x ≤ point.x ∧ point.x ≤ self.scroll.x + height)
    (hy : self.scroll.y ≤ point.y ∧ point.y ≤ self.scroll.y + height) :
    scroll_to self width height natW natH point false = self := by
  unfold scroll_to
  simp [hx.1, hx.2, hy.1, hy.2]

end Graphene
